import Mathlib

/-!
Verification development for the `simple-inventory` warehouse tracker.

The definitions below are a shallow embedding of the Python source:
  * `app/routes/settings.py`          - internal barcode pattern matcher
  * `app/routes/supplier_patterns.py` - supplier pattern matcher and URL resolution
  * `app/routes/entities.py`          - the entity store operations
  * `app/models/entity_type.py`       - builtin entity types

Conventions of the embedding:
  * Python `int` is `Int` (ids, which are positive surrogate keys, are `Nat`).
  * Python `float` columns (`price`, `price_snapshot`) are modelled as `Rat`;
    they are only copied around, never computed with, in the embedded code.
  * `None`-able columns are `Option`.
  * Python truthiness tests (`if x:` on optionals/strings/numbers) are made
    explicit through the `truthy*` helpers and `pyOr*` for `a or b`.
  * The SQLAlchemy session is a `DB` record of tables (lists of rows);
    `query(...).filter(...).first()` is `List.find?`, a fetched-row mutation
    plus commit is a keyed map over the table, `db.add` appends a row, and a
    raised `HTTPException` is `Except.error` (the transaction rolls back, so
    an error leaves the caller's state untouched).
-/

namespace SimpleInventory

/-- Models Python's `str.isdigit` test used by the matcher.  For ASCII
characters Python accepts exactly the digits `0`-`9`, which is what
`Char.isDigit` decides; Python additionally accepts some non-ASCII Unicode
digit code points, so theorems that quantify over all strings are stated for
ASCII inputs, where this embedding is exact. -/
def pyIsDigit (c : Char) : Bool := c.isDigit

/-- Models Python's `str.upper` character-wise; exact for ASCII characters
(`Char.toUpper` upcases exactly `a`-`z`). -/
def pyUpper (s : String) : String := ⟨s.data.map Char.toUpper⟩

/-- Embedding of `_match_pattern` (identical in `app/routes/settings.py` and
`app/routes/supplier_patterns.py`).  The Python helper recurses on index pairs
`(b_idx, p_idx)`, both only ever incremented; here the two indices are
represented by the corresponding suffixes of the barcode and of the pattern.
`$` first tries to match zero characters, then one; `#` requires a digit,
`*` any one character, and anything else matches literally. -/
def matchPattern : List Char → List Char → Bool
  | b, [] => b.isEmpty
  | b, pc :: p =>
    if pc = '$' then
      matchPattern b p ||
        (match b with
         | [] => false
         | _ :: b' => matchPattern b' p)
    else
      match b with
      | [] => false
      | bc :: b' =>
        if pc = '#' then pyIsDigit bc && matchPattern b' p
        else if pc = '*' then matchPattern b' p
        else (bc == pc) && matchPattern b' p

/-- Embedding of `barcode_matches_pattern` from `app/routes/settings.py`
(the internal, case-sensitive matcher): an empty pattern accepts every
barcode ("no pattern configured" sentinel). -/
def barcode_matches_pattern (barcode pattern : String) : Bool :=
  if pattern.isEmpty then true
  else matchPattern barcode.data pattern.data

/-- Embedding of `barcode_matches_pattern` from
`app/routes/supplier_patterns.py`: an empty pattern or an empty barcode never
matches, and both sides are upper-cased first (case-insensitive match). -/
def supplier_barcode_matches (barcode pattern : String) : Bool :=
  if pattern.isEmpty || barcode.isEmpty then false
  else matchPattern (pyUpper barcode).data (pyUpper pattern).data

/-- Row of the `supplier_patterns` table (`app/models/supplier_pattern.py`);
timestamp columns are omitted, no embedded operation reads them. -/
structure SupplierPattern where
  id : Nat
  name : String
  pattern : String
  search_url : String
  description : Option String := none
  enabled : Bool := true
deriving DecidableEq, Repr

/-- Response shape of `GET /supplier-patterns/match/{barcode}`
(`SupplierPatternMatch` in `app/schemas/supplier_pattern.py`). -/
structure SupplierPatternMatch where
  barcode : String
  matched : Bool
  supplier : Option SupplierPattern
  search_url : Option String
deriving DecidableEq, Repr

/-- Replacement step of Python's `str.replace(old, new)`: replaces the
leftmost occurrences, non-overlapping, scanning left to right.  The fuel
argument (always called with more fuel than the string length) makes the
recursion obviously terminating; an empty `pat` is returned unchanged (the
embedded code only replaces the non-empty literal `"{barcode}"`). -/
def replaceAllAux (pat rep : List Char) : Nat → List Char → List Char
  | _, [] => []
  | 0, s => s
  | fuel + 1, c :: rest =>
    if pat ≠ [] ∧ pat.isPrefixOf (c :: rest) then
      rep ++ replaceAllAux pat rep fuel ((c :: rest).drop pat.length)
    else
      c :: replaceAllAux pat rep fuel rest

/-- Models Python's `str.replace(old, new)` (replace every occurrence). -/
def pyReplace (s pat rep : String) : String :=
  ⟨replaceAllAux pat.data rep.data (s.data.length + 1) s.data⟩

/-- Embedding of `match_barcode` from `app/routes/supplier_patterns.py`.
The route fetches the enabled patterns (`filter(enabled == True).all()`,
with no `order_by`) and returns the first one, in the order the table
yields them, whose pattern matches; the `{barcode}` placeholder in its
`search_url` is replaced by the scanned barcode. -/
def match_barcode (patterns : List SupplierPattern) (barcode : String) :
    SupplierPatternMatch :=
  match (patterns.filter (fun p => p.enabled)).find?
      (fun p => supplier_barcode_matches barcode p.pattern) with
  | some p =>
    ⟨barcode, true, some p, some (pyReplace p.search_url "{barcode}" barcode)⟩
  | none => ⟨barcode, false, none, none⟩

/-- Lexicographic order on strings (code-point-wise), as a computable
Boolean. -/
def charListLe : List Char → List Char → Bool
  | [], _ => true
  | _ :: _, [] => false
  | a :: as, b :: bs => if a < b then true else if b < a then false else charListLe as bs

/-- `a <= b` on supplier names. -/
def strLe (a b : String) : Bool := charListLe a.data b.data

/-- Stable insertion of a pattern into a name-sorted list (ties keep the
earlier element first). -/
def insertByName (p : SupplierPattern) : List SupplierPattern → List SupplierPattern
  | [] => [p]
  | q :: t => if strLe p.name q.name then p :: q :: t else q :: insertByName p t

/-- Stable sort of supplier patterns by name. -/
def sortByName : List SupplierPattern → List SupplierPattern
  | [] => []
  | p :: t => insertByName p (sortByName t)

/-- Modelled from the spec's words, for comparison with `match_barcode`
(claim C4): "iterates enabled supplier patterns in a stable display order
(by name)".  Identical to `match_barcode` except that the enabled patterns
are first stably sorted by supplier name. -/
def match_barcode_nameOrdered (patterns : List SupplierPattern)
    (barcode : String) : SupplierPatternMatch :=
  match (sortByName (patterns.filter (fun p => p.enabled))).find?
      (fun p => supplier_barcode_matches barcode p.pattern) with
  | some p =>
    ⟨barcode, true, some p, some (pyReplace p.search_url "{barcode}" barcode)⟩
  | none => ⟨barcode, false, none, none⟩

/-- Models Python's `re.escape` on one character: every character outside
`[a-zA-Z0-9_]` is prefixed with a backslash (Python >= 3.7 semantics). -/
def pyReEscape (c : Char) : List Char :=
  if c.isAlphanum || c = '_' then [c] else ['\\', c]

/-- Embedding of `pattern_to_regex` from `app/routes/settings.py`: `#` becomes
`[0-9]`, `*` becomes `.`, `$` becomes `.?`, anything else is literal-escaped;
the result is anchored with `^...$`.  An empty pattern becomes `".*"`
(unanchored). -/
def pattern_to_regex (pattern : String) : String :=
  if pattern.isEmpty then ".*"
  else
    ⟨'^' :: (pattern.data.flatMap fun c =>
        if c = '#' then "[0-9]".data
        else if c = '*' then ['.']
        else if c = '$' then ['.', '?']
        else pyReEscape c) ++ ['$']⟩

/-- Acceptance relation of the regex produced by `pattern_to_regex` for a
non-empty pattern, under Python `re` with default flags.  The produced regex
is an anchored sequence of simple pieces, one per pattern character, so its
acceptance can be computed piece by piece from the source pattern:
`[0-9]` matches exactly one ASCII digit (`Char.isDigit`), `.` matches any one
character except a newline, `.?` matches such a character or nothing, and an
escaped literal matches exactly itself. -/
def regexAccepts : List Char → List Char → Bool
  | v, [] => v.isEmpty
  | v, pc :: p =>
    if pc = '#' then
      match v with
      | [] => false
      | c :: v' => c.isDigit && regexAccepts v' p
    else if pc = '*' then
      match v with
      | [] => false
      | c :: v' => (c != '\n') && regexAccepts v' p
    else if pc = '$' then
      regexAccepts v p ||
        (match v with
         | [] => false
         | c :: v' => (c != '\n') && regexAccepts v' p)
    else
      match v with
      | [] => false
      | c :: v' => (c == pc) && regexAccepts v' p

/-- Full-match acceptance of the regex string produced by `pattern_to_regex`:
for an empty pattern the produced regex is `".*"`, which matches a whole
string exactly when it contains no newline (`.` does not match `'\n'`);
otherwise the anchored piece-wise acceptance applies. -/
def pattern_regex_accepts (value pattern : String) : Bool :=
  if pattern.isEmpty then value.data.all (fun c => c != '\n')
  else regexAccepts value.data pattern.data

-- ==========================================================================
-- Entity store: data model (`app/models/entity.py`, `app/models/entity_type.py`)
-- ==========================================================================

/-- Row of the `entities` table (`app/models/entity.py`); timestamp columns
are omitted, no embedded operation reads them. -/
structure Entity where
  id : Nat
  barcode : String
  origin_barcode : Option String := none
  name : String := ""
  description : Option String := none
  entity_type : String
  quantity : Int := 1
  price : Option Rat := none
  warehouse_id : Option Nat := none
  parent_id : Option Nat := none
  custom_fields : List (String × String) := []
  status : Option String := none
deriving DecidableEq, Repr

/-- Row of the `entity_relations` table. -/
structure EntityRelation where
  id : Nat
  parent_id : Nat
  child_id : Nat
  quantity : Int := 1
  price_snapshot : Option Rat := none
  notes : Option String := none
deriving DecidableEq, Repr

/-- `EntityOperationType` from `app/models/entity.py`. -/
inductive EntityOperationType where
  | create | update | delete | move | convert
  | add_child | remove_child | split | merge | quantity_change
deriving DecidableEq, Repr

/-- Row of the `entity_history` table; the free-form JSON `details` column is
omitted (no claim reads it), timestamps likewise. -/
structure EntityHistory where
  entity_id : Nat
  operation : EntityOperationType
  user_id : Option Nat := none
  related_entity_id : Option Nat := none
deriving DecidableEq, Repr

/-- Row of the `entity_types` table (`app/models/entity_type.py`).  The
display-only columns (icon, color, visible/required field lists, sort order)
and the id are omitted: no embedded operation reads them, types are always
looked up by `code`. -/
structure EntityTypeRow where
  code : String
  name : String := ""
  can_contain_children : Bool := false
  can_be_child : Bool := true
  allowed_parent_types : List String := []
  allowed_child_types : List String := []
  available_statuses : List String := []
  default_status : Option String := none
  is_active : Bool := true
  is_builtin : Bool := false
deriving DecidableEq, Repr

/-- The store: one record of tables plus the autoincrement counters for the
two surrogate keys the embedded operations allocate.  `warehouses` holds just
the existing warehouse ids - the routes only ever test a warehouse's
existence. -/
structure DB where
  entities : List Entity := []
  entity_types : List EntityTypeRow := []
  warehouses : List Nat := []
  relations : List EntityRelation := []
  history : List EntityHistory := []
  next_entity_id : Nat := 1
  next_relation_id : Nat := 1
deriving DecidableEq, Repr

/-- `HTTPException` carriers: 404 vs 400 plus the `detail` string (constant
prefixes of the Python messages; the interpolated values are dropped). -/
inductive ApiError where
  | notFound (detail : String)
  | badRequest (detail : String)
deriving DecidableEq, Repr

-- Python truthiness (`if x:`) for the optional values the routes test.

/-- Truthiness of `Optional[int]`: `None` and `0` are falsy. -/
def truthyNat : Option Nat → Bool
  | some n => n != 0
  | none => false

/-- Truthiness of `Optional[int]` holding a signed value. -/
def truthyInt : Option Int → Bool
  | some i => i != 0
  | none => false

/-- Truthiness of `Optional[str]`: `None` and `""` are falsy. -/
def truthyStr : Option String → Bool
  | some s => !s.isEmpty
  | none => false

/-- Truthiness of `Optional[float]`: `None` and `0.0` are falsy. -/
def truthyRat : Option Rat → Bool
  | some r => r != 0
  | none => false

/-- Python `a or b` on optional ids. -/
def pyOrNat (a b : Option Nat) : Option Nat := if truthyNat a then a else b

/-- Python `a or b` on optional floats. -/
def pyOrRat (a b : Option Rat) : Option Rat := if truthyRat a then a else b

/-- Python `a or b` on optional strings. -/
def pyOrStr (a b : Option String) : Option String := if truthyStr a then a else b

-- Table access helpers.

/-- `db.query(Entity).filter(Entity.id == i).first()`. -/
def findEntity (db : DB) (i : Nat) : Option Entity :=
  db.entities.find? (fun e => e.id == i)

/-- `db.query(Entity).filter(Entity.barcode == b).first()`. -/
def findEntityByBarcode (db : DB) (b : String) : Option Entity :=
  db.entities.find? (fun e => e.barcode == b)

/-- Commit of a mutation on a fetched `Entity` row: every row with the same
id takes the new value (ids are unique in any state the app creates). -/
def setEntity (db : DB) (e' : Entity) : DB :=
  { db with entities := db.entities.map (fun e => if e.id == e'.id then e' else e) }

/-- `log_history` from `app/routes/entities.py` (insert-only). -/
def log_history (db : DB) (entity_id : Nat) (op : EntityOperationType)
    (user_id : Option Nat := none) (related_entity_id : Option Nat := none) : DB :=
  { db with history := db.history ++
      [{ entity_id := entity_id, operation := op, user_id := user_id,
         related_entity_id := related_entity_id }] }

/-- The direct tree children of entity `i`: the `Entity.children`
relationship (`parent_id` back-reference). -/
def childrenOf (db : DB) (i : Nat) : List Entity :=
  db.entities.filter (fun e => e.parent_id == some i)

/-- Deletion of a single entity row with its cascades to `entity_relations`
(either side) and `entity_history`.  The cascade to tree children is not
recursed here: the only embedded caller (`merge_entities`) reparents all
children before deleting, so there are none. -/
def deleteEntityRow (db : DB) (i : Nat) : DB :=
  { db with
    entities := db.entities.filter (fun e => e.id != i),
    relations := db.relations.filter (fun r => r.parent_id != i && r.child_id != i),
    history := db.history.filter (fun h => h.entity_id != i) }

-- ==========================================================================
-- Entity types: defaults and validators
-- ==========================================================================

/-- `DEFAULT_ENTITY_TYPES` from `app/models/entity_type.py` (the containment
and status columns; `ensure_default_types` inserts each with
`is_builtin=True`, `is_active` takes the column default `True`, and
`default_status` is absent from the dicts so it takes the column default
`None`). -/
def DEFAULT_ENTITY_TYPES : List EntityTypeRow :=
  [{ code := "item", name := "Item",
     can_contain_children := false, can_be_child := true,
     allowed_parent_types := ["container", "package"],
     allowed_child_types := [],
     available_statuses := [],
     is_builtin := true },
   { code := "container", name := "Container",
     can_contain_children := true, can_be_child := true,
     allowed_parent_types := ["container"],
     allowed_child_types := ["item", "container"],
     available_statuses := [],
     is_builtin := true },
   { code := "package", name := "Package",
     can_contain_children := true, can_be_child := false,
     allowed_parent_types := [],
     allowed_child_types := ["item"],
     available_statuses := ["new", "sourcing", "packed", "done", "cancelled"],
     is_builtin := true }]

/-- `ensure_default_types`: idempotently insert each builtin type whose code
is not already present. -/
def ensure_default_types (db : DB) : DB :=
  { db with entity_types :=
      (DEFAULT_ENTITY_TYPES.foldl
        (fun ts t => if ts.any (fun t0 => t0.code == t.code) then ts else ts ++ [t])
        db.entity_types) }

/-- `validate_entity_type`: ensure the defaults exist, then require an active
row with the given code.  Returns the evolved store together with the row. -/
def validate_entity_type (db : DB) (type_code : String) :
    Except ApiError (DB × EntityTypeRow) :=
  let db1 := ensure_default_types db
  match db1.entity_types.find? (fun t => t.code == type_code && t.is_active) with
  | some t => .ok (db1, t)
  | none => .error (.badRequest "Invalid or inactive entity type")

/-- `validate_parent_child_relationship`: the parent's type row must exist,
allow children at all, and (only when its `allowed_child_types` list is
non-empty) list the child's type code. -/
def validate_parent_child_relationship (db : DB) (parent : Entity)
    (child_type_code : String) : Except ApiError Unit :=
  match db.entity_types.find? (fun t => t.code == parent.entity_type) with
  | none => .error (.badRequest "Parent entity type not found")
  | some parent_type =>
    if !parent_type.can_contain_children then
      .error (.badRequest "Entity type cannot contain children")
    else if !parent_type.allowed_child_types.isEmpty &&
        !parent_type.allowed_child_types.contains child_type_code then
      .error (.badRequest "Entity type cannot contain entities of the child type")
    else
      .ok ()

-- ==========================================================================
-- Entity store operations (`app/routes/entities.py`)
-- ==========================================================================

/-- `EntityCreate` request schema (`app/schemas/entity.py`). -/
structure EntityCreate where
  barcode : String
  origin_barcode : Option String := none
  name : String
  description : Option String := none
  entity_type : String
  quantity : Int := 1
  price : Option Rat := none
  status : Option String := none
  custom_fields : List (String × String) := []
  warehouse_id : Option Nat := none
  parent_id : Option Nat := none
deriving DecidableEq, Repr

/-- `create_entity` (`POST /entities/`). -/
def create_entity (db : DB) (d : EntityCreate) (user_id : Nat) :
    Except ApiError (DB × Entity) :=
  match validate_entity_type db d.entity_type with
  | .error e => .error e
  | .ok (db1, entity_type) =>
    if (findEntityByBarcode db1 d.barcode).isSome then
      .error (.badRequest "Barcode already exists")
    else if truthyNat d.warehouse_id &&
        !db1.warehouses.contains (d.warehouse_id.getD 0) then
      .error (.notFound "Warehouse not found")
    else
      let parentCheck : Except ApiError Unit :=
        if truthyNat d.parent_id then
          match findEntity db1 (d.parent_id.getD 0) with
          | none => .error (.notFound "Parent entity not found")
          | some parent => validate_parent_child_relationship db1 parent d.entity_type
        else .ok ()
      match parentCheck with
      | .error e => .error e
      | .ok _ =>
        let status1 :=
          if !truthyStr d.status && truthyStr entity_type.default_status then
            entity_type.default_status
          else d.status
        let db_entity : Entity :=
          { id := db1.next_entity_id, barcode := d.barcode,
            origin_barcode := d.origin_barcode, name := d.name,
            description := d.description, entity_type := d.entity_type,
            quantity := d.quantity, price := d.price,
            warehouse_id := d.warehouse_id, parent_id := d.parent_id,
            custom_fields := d.custom_fields, status := status1 }
        let db2 := { db1 with entities := db1.entities ++ [db_entity],
                              next_entity_id := db1.next_entity_id + 1 }
        let db3 := log_history db2 db_entity.id .create (some user_id)
        .ok (db3, db_entity)

/-- `EntityUpdate` request schema.  pydantic's `exclude_unset` distinguishes
an absent field from a field explicitly set (possibly to `null`): the outer
`Option` is presence, the inner value is what `setattr` will store. -/
structure EntityUpdate where
  barcode : Option String := none
  origin_barcode : Option (Option String) := none
  name : Option String := none
  description : Option (Option String) := none
  entity_type : Option String := none
  quantity : Option Int := none
  price : Option (Option Rat) := none
  status : Option (Option String) := none
  custom_fields : Option (List (String × String)) := none
  warehouse_id : Option (Option Nat) := none
  parent_id : Option (Option Nat) := none
deriving DecidableEq, Repr

/-- `update_entity` (`PUT /entities/{id}`).  Type, barcode, warehouse and
parent changes are validated (parent: existence, direct self-parenting,
containment against the possibly-changing type), then every present field is
applied. -/
def update_entity (db : DB) (entity_id : Nat) (up : EntityUpdate) (user_id : Nat) :
    Except ApiError (DB × Entity) :=
  match findEntity db entity_id with
  | none => .error (.notFound "Entity not found")
  | some entity =>
    let typeCheck : Except ApiError DB :=
      match up.entity_type with
      | some t =>
        if t != entity.entity_type then
          match validate_entity_type db t with
          | .error e => .error e
          | .ok (db1, _) => .ok db1
        else .ok db
      | none => .ok db
    match typeCheck with
    | .error e => .error e
    | .ok db1 =>
      if (match up.barcode with
          | some b => b != entity.barcode && (findEntityByBarcode db1 b).isSome
          | none => false) then
        .error (.badRequest "Barcode already exists")
      else if (match up.warehouse_id with
          | some w => truthyNat w && !db1.warehouses.contains (w.getD 0)
          | none => false) then
        .error (.notFound "Warehouse not found")
      else
        let parentCheck : Except ApiError Unit :=
          match up.parent_id with
          | some p =>
            if truthyNat p then
              match findEntity db1 (p.getD 0) with
              | none => .error (.notFound "Parent entity not found")
              | some parent =>
                if parent.id == entity.id then
                  .error (.badRequest "Entity cannot be its own parent")
                else
                  validate_parent_child_relationship db1 parent
                    (up.entity_type.getD entity.entity_type)
            else .ok ()
          | none => .ok ()
        match parentCheck with
        | .error e => .error e
        | .ok _ =>
          let entity1 : Entity :=
            { entity with
              barcode := up.barcode.getD entity.barcode,
              origin_barcode := up.origin_barcode.getD entity.origin_barcode,
              name := up.name.getD entity.name,
              description := up.description.getD entity.description,
              entity_type := up.entity_type.getD entity.entity_type,
              quantity := up.quantity.getD entity.quantity,
              price := up.price.getD entity.price,
              status := up.status.getD entity.status,
              custom_fields := up.custom_fields.getD entity.custom_fields,
              warehouse_id := up.warehouse_id.getD entity.warehouse_id,
              parent_id := up.parent_id.getD entity.parent_id }
          let db2 := setEntity db1 entity1
          let db3 := log_history db2 entity.id .update (some user_id)
          .ok (db3, entity1)

/-- `EntityMove` request schema. -/
structure EntityMove where
  target_warehouse_id : Option Nat := none
  target_parent_id : Option Nat := none
  quantity : Option Int := none
deriving DecidableEq, Repr

/-- `move_entity` (`POST /entities/{id}/move`).  If a (truthy) quantity
strictly below the current quantity is given this is a split-and-move: a new
entity with the derived `"-split-"` barcode is created at
`target_warehouse_id or entity.warehouse_id` / `target_parent_id` and the
source quantity is decremented.  Otherwise a full move: a truthy target
parent is validated (existence, direct self-parenting, containment) and
clears `warehouse_id`; else a truthy target warehouse is validated and clears
`parent_id`; else the location is unchanged. -/
def move_entity (db : DB) (entity_id : Nat) (mv : EntityMove) (user_id : Nat) :
    Except ApiError (DB × Entity) :=
  match findEntity db entity_id with
  | none => .error (.notFound "Entity not found")
  | some entity =>
    if truthyInt mv.quantity && mv.quantity.getD 0 < entity.quantity then
      let split_entity : Entity :=
        { id := db.next_entity_id,
          barcode := entity.barcode ++ "-split-" ++ toString entity.id,
          origin_barcode := entity.origin_barcode,
          name := entity.name,
          description := entity.description,
          entity_type := entity.entity_type,
          quantity := mv.quantity.getD 0,
          price := entity.price,
          warehouse_id := pyOrNat mv.target_warehouse_id entity.warehouse_id,
          parent_id := mv.target_parent_id,
          custom_fields := entity.custom_fields,
          status := entity.status }
      let db1 := { db with entities := db.entities ++ [split_entity],
                           next_entity_id := db.next_entity_id + 1 }
      let db2 := setEntity db1 { entity with quantity := entity.quantity - mv.quantity.getD 0 }
      let db3 := log_history db2 entity.id .split (some user_id) (some split_entity.id)
      let db4 := log_history db3 split_entity.id .create (some user_id)
      .ok (db4, split_entity)
    else
      let finishMove : DB → Entity → Except ApiError (DB × Entity) :=
        fun db0 entity1 =>
          let db1 := setEntity db0 entity1
          let db2 := log_history db1 entity.id .move (some user_id)
          .ok (db2, entity1)
      if truthyNat mv.target_parent_id then
        match findEntity db (mv.target_parent_id.getD 0) with
        | none => .error (.notFound "Target parent entity not found")
        | some new_parent =>
          if new_parent.id == entity.id then
            .error (.badRequest "Entity cannot be its own parent")
          else
            match validate_parent_child_relationship db new_parent entity.entity_type with
            | .error e => .error e
            | .ok _ =>
              finishMove db { entity with parent_id := mv.target_parent_id,
                                          warehouse_id := none }
      else if truthyNat mv.target_warehouse_id then
        if !db.warehouses.contains (mv.target_warehouse_id.getD 0) then
          .error (.notFound "Target warehouse not found")
        else
          finishMove db { entity with warehouse_id := mv.target_warehouse_id,
                                      parent_id := none }
      else
        finishMove db entity

/-- `EntityConvert` request schema. -/
structure EntityConvert where
  new_type : String
  new_status : Option String := none
deriving DecidableEq, Repr

/-- `convert_entity` (`POST /entities/{id}/convert`).  The new type must be
active; a (truthy) parent whose type row restricts `allowed_child_types` must
list the new type; when the new type restricts `allowed_child_types`, every
current tree child's type must be listed (`can_contain_children` is NOT
consulted here).  The status becomes `new_status` if truthy, else the new
type's truthy `default_status`, else stays. -/
def convert_entity (db : DB) (entity_id : Nat) (cv : EntityConvert) (user_id : Nat) :
    Except ApiError (DB × Entity) :=
  match findEntity db entity_id with
  | none => .error (.notFound "Entity not found")
  | some entity =>
    match validate_entity_type db cv.new_type with
    | .error e => .error e
    | .ok (db1, new_type) =>
      let parentCheck : Except ApiError Unit :=
        if truthyNat entity.parent_id then
          match findEntity db1 (entity.parent_id.getD 0) with
          | none => .ok ()
          | some parent =>
            match db1.entity_types.find? (fun t => t.code == parent.entity_type) with
            | none => .ok ()
            | some parent_type =>
              if !parent_type.allowed_child_types.isEmpty &&
                  !parent_type.allowed_child_types.contains cv.new_type then
                .error (.badRequest "Parent entity cannot contain entities of the new type")
              else .ok ()
        else .ok ()
      match parentCheck with
      | .error e => .error e
      | .ok _ =>
        if !new_type.allowed_child_types.isEmpty &&
            (childrenOf db1 entity.id).any
              (fun ch => !new_type.allowed_child_types.contains ch.entity_type) then
          .error (.badRequest "New type cannot contain entities of a child type")
        else
          let status1 :=
            if truthyStr cv.new_status then cv.new_status
            else if truthyStr new_type.default_status then new_type.default_status
            else entity.status
          let entity1 := { entity with entity_type := cv.new_type, status := status1 }
          let db2 := setEntity db1 entity1
          let db3 := log_history db2 entity.id .convert (some user_id)
          .ok (db3, entity1)

/-- `EntitySplit` request schema (`quantity` is validated `gt=0` by pydantic;
the embedded operation keeps the raw integer and the claims add the
positivity bound explicitly). -/
structure EntitySplit where
  quantity : Int
  new_barcode : String
  target_warehouse_id : Option Nat := none
  target_parent_id : Option Nat := none
deriving DecidableEq, Repr

/-- `split_entity` (`POST /entities/{id}/split`).  The split quantity must be
strictly below the current quantity and the new barcode unused; the target
defaults to the source's own location (`or`-fallback), a truthy target parent
is validated for containment and forces `warehouse_id = None`, else a truthy
target warehouse must exist.  The new entity carries the descriptive fields
and the split quantity; the source is decremented. -/
def split_entity (db : DB) (entity_id : Nat) (s : EntitySplit) (user_id : Nat) :
    Except ApiError (DB × Entity) :=
  match findEntity db entity_id with
  | none => .error (.notFound "Entity not found")
  | some entity =>
    if s.quantity ≥ entity.quantity then
      .error (.badRequest "Split quantity must be less than current quantity")
    else if (findEntityByBarcode db s.new_barcode).isSome then
      .error (.badRequest "New barcode already exists")
    else
      let target_warehouse_id := pyOrNat s.target_warehouse_id entity.warehouse_id
      let target_parent_id := pyOrNat s.target_parent_id entity.parent_id
      let mkNew : Option Nat → Option Nat → Except ApiError (DB × Entity) :=
        fun tw tp =>
          let new_entity : Entity :=
            { id := db.next_entity_id,
              barcode := s.new_barcode,
              origin_barcode := entity.origin_barcode,
              name := entity.name,
              description := entity.description,
              entity_type := entity.entity_type,
              quantity := s.quantity,
              price := entity.price,
              warehouse_id := tw,
              parent_id := tp,
              custom_fields := entity.custom_fields,
              status := entity.status }
          let db1 := { db with entities := db.entities ++ [new_entity],
                               next_entity_id := db.next_entity_id + 1 }
          let db2 := setEntity db1 { entity with quantity := entity.quantity - s.quantity }
          let db3 := log_history db2 entity.id .split (some user_id) (some new_entity.id)
          let db4 := log_history db3 new_entity.id .create (some user_id)
          .ok (db4, new_entity)
      if truthyNat target_parent_id then
        match findEntity db (target_parent_id.getD 0) with
        | none => .error (.notFound "Target parent entity not found")
        | some parent =>
          match validate_parent_child_relationship db parent entity.entity_type with
          | .error e => .error e
          | .ok _ => mkNew none target_parent_id
      else if truthyNat target_warehouse_id then
        if !db.warehouses.contains (target_warehouse_id.getD 0) then
          .error (.notFound "Target warehouse not found")
        else mkNew target_warehouse_id target_parent_id
      else mkNew target_warehouse_id target_parent_id

/-- Quantity bump of a fetched row committed through the session
(`target.quantity += source.quantity` in `merge_entities`). -/
def bumpQuantity (db : DB) (i : Nat) (dq : Int) : DB :=
  { db with entities := (db.entities.map
      (fun e => if e.id == i then { e with quantity := e.quantity + dq } else e)) }

/-- `for child in source.children[:]: child.parent_id = target.id` - every
tree child of `from_id` is reparented onto `to_id`. -/
def reparentChildren (db : DB) (from_id to_id : Nat) : DB :=
  { db with entities := (db.entities.map
      (fun e => if e.parent_id == some from_id then { e with parent_id := some to_id }
                else e)) }

/-- The `for source_id in merge_data.source_entity_ids` loop of
`merge_entities`: a source equal to the target or not found is skipped
(`continue`); a type mismatch raises, aborting the whole request; otherwise
the target quantity is bumped, the source's tree children are reparented onto
the target, MERGE is logged and the source row is deleted.  The target's type
(`targetType`) is fixed by the fetch before the loop and never reassigned. -/
def merge_loop (target_id : Nat) (targetType : String) (user_id : Nat) :
    DB → List Nat → Except ApiError DB
  | db, [] => .ok db
  | db, source_id :: rest =>
    if source_id == target_id then merge_loop target_id targetType user_id db rest
    else
      match findEntity db source_id with
      | none => merge_loop target_id targetType user_id db rest
      | some source =>
        if source.entity_type != targetType then
          .error (.badRequest "Cannot merge entities of different types")
        else
          let db1 := bumpQuantity db target_id source.quantity
          let db2 := reparentChildren db1 source_id target_id
          let db3 := log_history db2 target_id .merge (some user_id) (some source_id)
          let db4 := deleteEntityRow db3 source_id
          merge_loop target_id targetType user_id db4 rest

/-- `merge_entities` (`POST /entities/{id}/merge`). -/
def merge_entities (db : DB) (entity_id : Nat) (source_entity_ids : List Nat)
    (user_id : Nat) : Except ApiError (DB × Entity) :=
  match findEntity db entity_id with
  | none => .error (.notFound "Target entity not found")
  | some target =>
    match merge_loop entity_id target.entity_type user_id db source_entity_ids with
    | .error e => .error e
    | .ok db' => .ok (db', (findEntity db' entity_id).getD target)

/-- `adjust_quantity` (`POST /entities/{id}/quantity`): fails when the result
would be negative, else stores `quantity + adjustment` and logs the change. -/
def adjust_quantity (db : DB) (entity_id : Nat) (adjustment : Int) (user_id : Nat) :
    Except ApiError (DB × Entity) :=
  match findEntity db entity_id with
  | none => .error (.notFound "Entity not found")
  | some entity =>
    let new_quantity := entity.quantity + adjustment
    if new_quantity < 0 then
      .error (.badRequest "Cannot reduce quantity below 0")
    else
      let entity1 := { entity with quantity := new_quantity }
      let db1 := setEntity db entity1
      let db2 := log_history db1 entity.id .quantity_change (some user_id)
      .ok (db2, entity1)

/-- `AddChildRequest` schema (`quantity` is validated `ge=1` by pydantic). -/
structure AddChildRequest where
  child_barcode : Option String := none
  child_id : Option Nat := none
  quantity : Int := 1
  remove_from_source : Bool := true
  price_snapshot : Option Rat := none
  notes : Option String := none
deriving DecidableEq, Repr

/-- `add_child_to_entity` (`POST /entities/{id}/children`).  The child is
resolved by truthy barcode, else truthy id, else the request is rejected;
containment is validated; with `remove_from_source` a quantity above the
child's own is rejected.  An existing `(parent, child)` relation accumulates
the quantity (price/notes overwritten only when truthy); otherwise a new
relation is created with `price_snapshot or child.price`.  With
`remove_from_source` the child's own quantity is decremented, floored at
zero; the child row itself is never deleted. -/
def add_child_to_entity (db : DB) (entity_id : Nat) (c : AddChildRequest)
    (user_id : Nat) : Except ApiError (DB × EntityRelation) :=
  match findEntity db entity_id with
  | none => .error (.notFound "Parent entity not found")
  | some parent =>
    let childLookup : Except ApiError Entity :=
      if truthyStr c.child_barcode then
        match findEntityByBarcode db (c.child_barcode.getD "") with
        | some child => .ok child
        | none => .error (.notFound "Child entity not found")
      else if truthyNat c.child_id then
        match findEntity db (c.child_id.getD 0) with
        | some child => .ok child
        | none => .error (.notFound "Child entity not found")
      else .error (.badRequest "Must provide either child_barcode or child_id")
    match childLookup with
    | .error e => .error e
    | .ok child =>
      match validate_parent_child_relationship db parent child.entity_type with
      | .error e => .error e
      | .ok _ =>
        if c.remove_from_source && c.quantity > child.quantity then
          .error (.badRequest "Cannot add more items than available")
        else
          let finish : DB → EntityRelation → Except ApiError (DB × EntityRelation) :=
            fun db1 relation =>
              let db2 :=
                if c.remove_from_source then
                  if c.quantity ≥ child.quantity then
                    setEntity db1 { child with quantity := 0 }
                  else
                    setEntity db1 { child with quantity := child.quantity - c.quantity }
                else db1
              let db3 := log_history db2 parent.id .add_child (some user_id) (some child.id)
              .ok (db3, relation)
          match db.relations.find?
              (fun r => r.parent_id == entity_id && r.child_id == child.id) with
          | some existing_relation =>
            let relation :=
              { existing_relation with
                quantity := existing_relation.quantity + c.quantity,
                price_snapshot :=
                  if truthyRat c.price_snapshot then c.price_snapshot
                  else existing_relation.price_snapshot,
                notes := if truthyStr c.notes then c.notes else existing_relation.notes }
            let db1 := { db with relations := (db.relations.map
                (fun r => if r.id == existing_relation.id then relation else r)) }
            finish db1 relation
          | none =>
            let relation : EntityRelation :=
              { id := db.next_relation_id, parent_id := entity_id, child_id := child.id,
                quantity := c.quantity,
                price_snapshot := pyOrRat c.price_snapshot child.price,
                notes := c.notes }
            let db1 := { db with relations := db.relations ++ [relation],
                                 next_relation_id := db.next_relation_id + 1 }
            finish db1 relation

-- ==========================================================================
-- Derived predicates and result accessors
-- ==========================================================================

/-- The location-exclusivity invariant of the spec: at most one of
`warehouse_id` / `parent_id` is non-null. -/
def locationExclusive (e : Entity) : Bool :=
  e.warehouse_id.isNone || e.parent_id.isNone

/-- Whether an operation succeeded. -/
def isOkE {α : Type} (r : Except ApiError α) : Bool :=
  match r with
  | .ok _ => true
  | .error _ => false

/-- The store state after a successful operation. -/
def stateOf {α : Type} (r : Except ApiError (DB × α)) : Option DB :=
  r.toOption.map Prod.fst

/-- The row returned by a successful operation. -/
def valueOf {α : Type} (r : Except ApiError (DB × α)) : Option α :=
  r.toOption.map Prod.snd

/-- The target-location validation performed by `split_entity` after its
quantity and barcode checks, stated as a predicate: the `or`-defaulted target
parent (when truthy) must exist and pass containment; otherwise the
`or`-defaulted target warehouse (when truthy) must exist. -/
def splitTargetOk (db : DB) (e : Entity) (s : EntitySplit) : Bool :=
  let target_parent_id := pyOrNat s.target_parent_id e.parent_id
  let target_warehouse_id := pyOrNat s.target_warehouse_id e.warehouse_id
  if truthyNat target_parent_id then
    match findEntity db (target_parent_id.getD 0) with
    | none => false
    | some parent =>
      match validate_parent_child_relationship db parent e.entity_type with
      | .ok _ => true
      | .error _ => false
  else if truthyNat target_warehouse_id then
    db.warehouses.contains (target_warehouse_id.getD 0)
  else true

/-- Placeholder row used only to extract values out of `Option`s that are
proved (or computed) to be `some`. -/
def dummyEntity : Entity := { id := 0, barcode := "", entity_type := "" }

-- ==========================================================================
-- Concrete fixtures used by the claim theorems
-- ==========================================================================

-- C1: an item with quantity 5 sitting in warehouse 1, next to a container.
def exC1db : DB :=
  { entities :=
      [{ id := 1, barcode := "A", entity_type := "item", quantity := 5,
         warehouse_id := some 1 },
       { id := 2, barcode := "P", entity_type := "container", quantity := 1,
         warehouse_id := some 1 }],
    warehouses := [1], next_entity_id := 3 }

-- C1: split-and-move of 2 of the 5 units into the container.
def exC1mv : EntityMove := { target_parent_id := some 2, quantity := some 2 }

def wC1e : Entity :=
  { id := 1, barcode := "A", entity_type := "item", quantity := 5,
    warehouse_id := some 1 }

def wC1db : DB :=
  { entities := [wC1e], warehouses := [1, 2], next_entity_id := 2 }

-- C1 witness: a plain full move to warehouse 2.
def wC1mv : EntityMove := { target_warehouse_id := some 2 }

-- C2: the empty store with one warehouse; the cycle is built by two creates
-- and one update.
def cycDB0 : DB := { warehouses := [1] }

def cycRes1 : Except ApiError (DB × Entity) :=
  create_entity cycDB0
    { barcode := "A", name := "A", entity_type := "container",
      quantity := 1, warehouse_id := some 1 } 9

def cycDB1 : DB := (stateOf cycRes1).getD {}

def cycRes2 : Except ApiError (DB × Entity) :=
  create_entity cycDB1
    { barcode := "B", name := "B", entity_type := "container",
      quantity := 1, parent_id := some 1 } 9

def cycDB2 : DB := (stateOf cycRes2).getD {}

def cycRes3 : Except ApiError (DB × Entity) :=
  update_entity cycDB2 1 { parent_id := some (some 2) } 9

def cycDB3 : DB := (stateOf cycRes3).getD {}

-- C3: target of type container, source of type item.
def exC3db : DB :=
  { entities :=
      [{ id := 1, barcode := "T", entity_type := "container", quantity := 1 },
       { id := 2, barcode := "S", entity_type := "item", quantity := 3 }] }

def wC3target : Entity :=
  { id := 1, barcode := "T", entity_type := "container", quantity := 1 }

-- C3 witness: target and source of the same type, a tree child of the
-- source, plus dangling source ids.
def wS3 : Entity := { id := 3, barcode := "S3", entity_type := "container", quantity := 4 }

def wChild : Entity :=
  { id := 5, barcode := "CH", entity_type := "item", quantity := 2, parent_id := some 3 }

def wC3db : DB := { entities := [wC3target, wS3, wChild] }

-- C4: two enabled patterns, both matching "12", stored in an order opposite
-- to their display (by-name) order.
def spZ : SupplierPattern :=
  { id := 1, name := "Zeta", pattern := "##",
    search_url := "https://z.example/search?q={barcode}" }

def spA : SupplierPattern :=
  { id := 2, name := "Alpha", pattern := "##",
    search_url := "https://a.example/search?q={barcode}" }

-- C6: a container and an item with quantity 5, under the builtin type rows.
def acC : Entity := { id := 1, barcode := "C", entity_type := "container", quantity := 1 }

def acI : Entity := { id := 2, barcode := "I-1", entity_type := "item", quantity := 5 }

def acDB : DB :=
  { entities := [acC, acI], entity_types := DEFAULT_ENTITY_TYPES }

def acReq1 : AddChildRequest :=
  { child_barcode := some "I-1", quantity := 3, remove_from_source := true }

def acReq2 : AddChildRequest :=
  { child_barcode := some "I-1", quantity := 2, remove_from_source := true }

def acRes1 : Except ApiError (DB × EntityRelation) :=
  add_child_to_entity acDB 1 acReq1 2

def acDB1 : DB := (stateOf acRes1).getD {}

def acRes2 : Except ApiError (DB × EntityRelation) :=
  add_child_to_entity acDB1 1 acReq2 2

-- The rows as they stand after the first addChild (parent unchanged, item
-- down to quantity 2).
def acC1 : Entity := (findEntity acDB1 1).getD dummyEntity

def acI1 : Entity := (findEntityByBarcode acDB1 "I-1").getD dummyEntity

-- C7: an item with quantity 5 in warehouse 1.
def spE : Entity :=
  { id := 1, barcode := "S", entity_type := "item", quantity := 5,
    warehouse_id := some 1 }

def spDB : DB := { entities := [spE], warehouses := [1], next_entity_id := 2 }

def spReq : EntitySplit := { quantity := 2, new_barcode := "S-2" }

def spReqBig : EntitySplit := { quantity := 5, new_barcode := "S-2" }

-- C8: an item with quantity 5.
def aqE : Entity := { id := 1, barcode := "Q", entity_type := "item", quantity := 5 }

def aqDB : DB := { entities := [aqE] }

-- C10: a container holding an item, converted to type "item".
def cvA : Entity :=
  { id := 1, barcode := "A", entity_type := "container", quantity := 1,
    warehouse_id := some 1 }

def cvB : Entity :=
  { id := 2, barcode := "B", entity_type := "item", quantity := 1,
    parent_id := some 1 }

def cvDB : DB := { entities := [cvA, cvB], warehouses := [1] }

def cvReq : EntityConvert := { new_type := "item" }

-- The builtin "item" row as the store yields it after `ensure_default_types`.
def cvT : EntityTypeRow :=
  (((ensure_default_types cvDB).entity_types.find?
      (fun t => t.code == "item" && t.is_active)).getD { code := "" })

-- ==========================================================================
-- General helper lemmas
-- ==========================================================================

theorem isEmpty_eq_data_isEmpty (s : String) : s.isEmpty = s.data.isEmpty := by
  cases s with
  | mk data =>
    cases data with
    | nil => rfl
    | cons c cs =>
      simp only [String.isEmpty, String.endPos, String.utf8ByteSize, String.utf8ByteSize.go,
        List.isEmpty]
      rw [Bool.eq_false_iff]
      intro hEq
      have h2 : String.utf8ByteSize.go cs + c.utf8Size = 0 :=
        congrArg String.Pos.byteIdx (eq_of_beq hEq)
      have := Char.utf8Size_pos c
      omega

theorem find?_first {α : Type} (pred : α → Bool) :
    ∀ (l1 : List α) (p : α) (l2 : List α), (∀ q ∈ l1, pred q = false) → pred p = true →
      (l1 ++ p :: l2).find? pred = some p := by
  intro l1
  induction l1 with
  | nil => intro p l2 _ hp; simp [List.find?_cons_of_pos _ hp]
  | cons a t ih =>
    intro p l2 h hp
    have ha : pred a = false := h a (by simp)
    rw [List.cons_append, List.find?_cons_of_neg _ (by simp [ha])]
    exact ih p l2 (fun q hq => h q (by simp [hq])) hp

theorem find?_id_update (l : List Entity) (i : Nat) (e e' : Entity)
    (h : l.find? (fun x => x.id == i) = some e) (hid : e'.id = e.id) :
    (l.map (fun x => if x.id == e'.id then e' else x)).find? (fun x => x.id == i)
      = some e' := by
  induction l with
  | nil => simp at h
  | cons a t ih =>
    by_cases ha : (a.id == i) = true
    · simp only [List.find?_cons, ha] at h
      have hae : a = e := by simpa using h
      have hai : a.id = i := by simpa using ha
      have h1 : (a.id == e'.id) = true := by simp [hid, hae]
      have h2 : (e'.id == i) = true := by
        rw [hid, ← hae]
        simpa using hai
      simp only [List.map_cons, if_pos h1, List.find?_cons, h2]
    · simp only [List.find?_cons, Bool.not_eq_true] at h ha
      rw [ha] at h
      have hei : e.id = i := by
        have := List.find?_some h
        simpa using this
      have hne : (a.id == e'.id) = false := by
        rw [hid, hei]
        simpa using ha
      simp only [List.map_cons, if_neg (by simp [hne] : ¬(a.id == e'.id) = true),
        List.find?_cons, ha]
      exact ih h

theorem find?_id_keep (l : List Entity) (i : Nat) (x e' : Entity)
    (h : l.find? (fun y => y.id == i) = some x) (hne : e'.id ≠ i) :
    (l.map (fun y => if y.id == e'.id then e' else y)).find? (fun y => y.id == i)
      = some x := by
  induction l with
  | nil => simp at h
  | cons a t ih =>
    by_cases ha : (a.id == i) = true
    · simp only [List.find?_cons, ha] at h
      have hai : a.id = i := by simpa using ha
      have hne2 : (a.id == e'.id) = false := by
        rw [hai]
        simp
        omega
      simp only [List.map_cons, if_neg (by simp [hne2] : ¬(a.id == e'.id) = true),
        List.find?_cons, ha]
      exact h
    · simp only [List.find?_cons, Bool.not_eq_true] at h ha
      rw [ha] at h
      by_cases hae : (a.id == e'.id) = true
      · have hpe : (e'.id == i) = false := by simpa using hne
        simp only [List.map_cons, if_pos hae, List.find?_cons, hpe]
        exact ih h
      · simp only [List.map_cons, if_neg hae, List.find?_cons, ha]
        exact ih h

theorem find?_id_none_map (l : List Entity) (j : Nat) (f : Entity → Entity)
    (hf : ∀ e, (f e).id = e.id) (h : l.find? (fun x => x.id == j) = none) :
    (l.map f).find? (fun x => x.id == j) = none := by
  rw [List.find?_eq_none] at h ⊢
  intro x hx
  obtain ⟨y, hy, rfl⟩ := List.mem_map.mp hx
  simpa [hf y] using h y hy

theorem find?_id_none_filter (l : List Entity) (j : Nat) (q : Entity → Bool)
    (h : l.find? (fun x => x.id == j) = none) :
    (l.filter q).find? (fun x => x.id == j) = none := by
  rw [List.find?_eq_none] at h ⊢
  intro x hx
  exact h x (List.mem_filter.mp hx).1

theorem find?_id_map_filter (l : List Entity) (w s : Nat) (hws : w ≠ s)
    (f : Entity → Entity) (hf : ∀ e, (f e).id = e.id) (e : Entity)
    (h : l.find? (fun x => x.id == w) = some e) :
    ((l.map f).filter (fun x => x.id != s)).find? (fun x => x.id == w)
      = some (f e) := by
  induction l with
  | nil => simp at h
  | cons a t ih =>
    by_cases ha : (a.id == w) = true
    · simp only [List.find?_cons, ha] at h
      have hae : a = e := by simpa using h
      have hai : a.id = w := by simpa using ha
      have hkeep : ((f a).id != s) = true := by simp [hf, hai, hws]
      have hpred : ((f a).id == w) = true := by simp [hf, hai]
      rw [List.map_cons, List.filter_cons, if_pos hkeep]
      simp only [List.find?_cons, hpred]
      rw [hae]
    · simp only [List.find?_cons, Bool.not_eq_true] at h ha
      rw [ha] at h
      have hpred : ((f a).id == w) = false := by
        rw [hf]
        exact ha
      by_cases hdrop : ((f a).id != s) = true
      · rw [List.map_cons, List.filter_cons, if_pos hdrop]
        simp only [List.find?_cons, hpred]
        exact ih h
      · rw [List.map_cons, List.filter_cons, if_neg hdrop]
        exact ih h

theorem find?_id_map_filter_self (l : List Entity) (s : Nat) (f : Entity → Entity) :
    ((l.map f).filter (fun x => x.id != s)).find? (fun x => x.id == s) = none := by
  rw [List.find?_eq_none]
  intro x hx
  have := (List.mem_filter.mp hx).2
  simp only [bne_iff_ne, ne_eq] at this
  simp [this]

theorem find?_append_some (l1 l2 : List Entity) (pred : Entity → Bool) (x : Entity)
    (h : l1.find? pred = some x) : (l1 ++ l2).find? pred = some x := by
  rw [List.find?_append, h]
  rfl

theorem regexAccepts_eq_matchPattern (p : List Char) :
    ∀ (v : List Char), (∀ c ∈ v, c ≠ '\n') →
      regexAccepts v p = matchPattern v p := by
  induction p with
  | nil => intro v _; rfl
  | cons pc p ih =>
    intro v hv
    by_cases h1 : pc = '$'
    · subst h1
      cases v with
      | nil =>
        simp only [regexAccepts, matchPattern]
        rw [ih [] (by simp)]
        simp
      | cons c v' =>
        have hc : (c != '\n') = true := by simpa using hv c (by simp)
        simp only [regexAccepts, matchPattern, hc]
        rw [ih (c :: v') hv, ih v' (fun d hd => hv d (by simp [hd]))]
        simp
    · cases v with
      | nil =>
        simp only [regexAccepts, matchPattern]
        simp [h1]
      | cons c v' =>
        have hc : (c != '\n') = true := by simpa using hv c (by simp)
        have ih' := ih v' (fun d hd => hv d (by simp [hd]))
        by_cases h2 : pc = '#'
        · subst h2
          simp only [regexAccepts, matchPattern]
          simp [ih', pyIsDigit]
        · by_cases h3 : pc = '*'
          · subst h3
            simp only [regexAccepts, matchPattern]
            simp [h1, hc, ih']
          · simp only [regexAccepts, matchPattern]
            simp [h1, h2, h3, ih']

theorem supplier_matches_upper_congr (b b' : String) (h : pyUpper b = pyUpper b')
    (pat : String) :
    supplier_barcode_matches b pat = supplier_barcode_matches b' pat := by
  have hd : b.data.map Char.toUpper = b'.data.map Char.toUpper := congrArg String.data h
  have hE : b.isEmpty = b'.isEmpty := by
    rw [isEmpty_eq_data_isEmpty, isEmpty_eq_data_isEmpty]
    cases hb : b.data <;> cases hb' : b'.data <;> rw [hb, hb'] at hd <;> simp_all
  unfold supplier_barcode_matches
  rw [hE, h]

-- ==========================================================================
-- Claim C5 (pattern matcher test vector)
-- ==========================================================================

/-- C5, counterexample: the claim asserts `matches("A1B23","A*###") == true`,
but the internal matcher returns `false` on that vector: `*` consumes exactly
one character (the `'1'`), after which `'B'` fails the first `#`. -/
theorem match_vector_A1B23_star_is_false :
    barcode_matches_pattern "A1B23" "A*###" = false := by decide

/-- C5, amended: on input `"A1B23"` the matcher rejects both `"A$###"` (as the
claim states) and `"A*###"` (where the claim expected `true`): under the
stated alphabet both patterns require three digits after the optional /
single-character wildcard, and `"B23"` is not three digits. -/
theorem match_vectors_A1B23 :
    barcode_matches_pattern "A1B23" "A$###" = false ∧
    barcode_matches_pattern "A1B23" "A*###" = false := by decide

-- ==========================================================================
-- Claim C9 (patternToRegex vs matcher equivalence)
-- ==========================================================================

/-- C9, counterexample: the produced regex is not behaviorally equivalent to
the matcher on every value: on the one-character value `"\n"` with pattern
`"*"` the matcher accepts (its `*` consumes any character) while the regex
`^.$` rejects (`.` does not match a newline under Python `re`'s default
flags). -/
theorem pattern_regex_newline_divergence :
    pattern_regex_accepts "\n" "*" ≠ barcode_matches_pattern "\n" "*" := by decide

/-- C9, amended: for every value containing no newline character the anchored
regex produced by `pattern_to_regex` accepts the value exactly when the
matcher does, for every pattern.  (Python's `str.isdigit` is modelled at
ASCII exactness - `#` / `[0-9]` coincide there; on a value containing `'\n'`
the matcher's `*`/`$` accept where the regex's `.`/`.?` do not, and the empty
pattern's `".*"` likewise rejects newlines the matcher accepts.) -/
theorem pattern_regex_equiv_no_newline (value pattern : String)
    (hnl : ∀ c ∈ value.data, c ≠ '\n') :
    pattern_regex_accepts value pattern = barcode_matches_pattern value pattern := by
  unfold pattern_regex_accepts barcode_matches_pattern
  by_cases hp : pattern.isEmpty
  · simp only [hp, if_true, if_pos]
    rw [List.all_eq_true]
    intro c hc
    simpa using hnl c hc
  · simp only [hp, Bool.false_eq_true, if_false]
    exact regexAccepts_eq_matchPattern pattern.data value.data hnl

/-- C9, witness: the equivalence theorem applied at the concrete newline-free
value `"A1"` and pattern `"A$#"`. -/
theorem pattern_regex_equiv_no_newline_witness :
    pattern_regex_accepts "A1" "A$#" = barcode_matches_pattern "A1" "A$#" :=
  pattern_regex_equiv_no_newline "A1" "A$#" (by decide)

-- ==========================================================================
-- Claim C4 (supplier matcher resolution)
-- ==========================================================================

/-- C4, counterexample: `match_barcode` iterates the enabled patterns in
stored order, not sorted by name.  With two enabled patterns both matching
`"12"`, stored as `[Zeta, Alpha]`, the route resolves to Zeta's URL while the
claimed by-name iteration would resolve to Alpha's. -/
theorem match_barcode_ignores_name_order :
    match_barcode [spZ, spA] "12" ≠ match_barcode_nameOrdered [spZ, spA] "12" := by
  decide

/-- C4, amended: `match_barcode` returns, for the FIRST enabled pattern in
the order the pattern table yields them (not sorted by name) whose template
matches the barcode case-insensitively, `matched = true` and the pattern's
`search_url` with every `{barcode}` occurrence replaced by the input; if no
enabled pattern matches it returns `matched = false`.  Matching is
case-insensitive: barcodes equal up to upper-casing match the same set of
patterns. -/
theorem match_barcode_resolution (ps : List SupplierPattern) (b : String) :
    ((match_barcode ps b).matched = false ↔
      ∀ p ∈ ps, p.enabled = true → supplier_barcode_matches b p.pattern = false)
    ∧ (∀ p, (match_barcode ps b).supplier = some p →
        p ∈ ps ∧ p.enabled = true ∧ supplier_barcode_matches b p.pattern = true ∧
        (match_barcode ps b).matched = true ∧
        (match_barcode ps b).search_url = some (pyReplace p.search_url "{barcode}" b))
    ∧ (∀ l1 p l2, ps.filter (fun q => q.enabled) = l1 ++ p :: l2 →
        (∀ q ∈ l1, supplier_barcode_matches b q.pattern = false) →
        supplier_barcode_matches b p.pattern = true →
        (match_barcode ps b).supplier = some p)
    ∧ (∀ b', pyUpper b = pyUpper b' →
        (match_barcode ps b).matched = (match_barcode ps b').matched) := by
  refine ⟨?_, ?_, ?_, ?_⟩
  · cases hF : (ps.filter (fun p => p.enabled)).find?
        (fun p => supplier_barcode_matches b p.pattern) with
    | none =>
      have hres : match_barcode ps b = ⟨b, false, none, none⟩ := by
        unfold match_barcode
        rw [hF]
      rw [hres]
      rw [List.find?_eq_none] at hF
      constructor
      · intro _ p hp hen
        have hm := hF p (List.mem_filter.mpr ⟨hp, by simpa using hen⟩)
        simpa using hm
      · intro _
        rfl
    | some q =>
      have hres : match_barcode ps b
          = ⟨b, true, some q, some (pyReplace q.search_url "{barcode}" b)⟩ := by
        unfold match_barcode
        rw [hF]
      have hq := List.find?_some hF
      have hqm := List.mem_of_find?_eq_some hF
      rw [hres]
      constructor
      · intro hm
        exact absurd hm (by simp)
      · intro hall
        have hc := hall q (List.mem_filter.mp hqm).1 (by simpa using (List.mem_filter.mp hqm).2)
        rw [show supplier_barcode_matches b q.pattern = true from hq] at hc
        exact absurd hc (by simp)
  · intro p hp
    cases hF : (ps.filter (fun r => r.enabled)).find?
        (fun r => supplier_barcode_matches b r.pattern) with
    | none =>
      have hres : match_barcode ps b = ⟨b, false, none, none⟩ := by
        unfold match_barcode
        rw [hF]
      rw [hres] at hp
      simp at hp
    | some q =>
      have hres : match_barcode ps b
          = ⟨b, true, some q, some (pyReplace q.search_url "{barcode}" b)⟩ := by
        unfold match_barcode
        rw [hF]
      rw [hres] at hp
      simp only [Option.some.injEq] at hp
      have hq := List.find?_some hF
      have hqm := List.mem_of_find?_eq_some hF
      subst hp
      refine ⟨(List.mem_filter.mp hqm).1, by simpa using (List.mem_filter.mp hqm).2,
        hq, ?_, ?_⟩
      · rw [hres]
      · rw [hres]
  · intro l1 p l2 hsplit hl1 hp
    have hF : (ps.filter (fun q => q.enabled)).find?
        (fun q => supplier_barcode_matches b q.pattern) = some p := by
      rw [hsplit]
      exact find?_first _ l1 p l2 hl1 hp
    unfold match_barcode
    rw [hF]
  · intro b' hU
    have hfun : (fun p : SupplierPattern => supplier_barcode_matches b p.pattern)
        = (fun p : SupplierPattern => supplier_barcode_matches b' p.pattern) :=
      funext (fun p => supplier_matches_upper_congr b b' hU p.pattern)
    unfold match_barcode
    rw [hfun]
    cases (ps.filter (fun p => p.enabled)).find?
        (fun p => supplier_barcode_matches b' p.pattern) <;> rfl

/-- C4, witness: the amended theorem applied to the concrete store
`[Zeta, Alpha]` and barcode `"12"`: the first listed enabled match (Zeta)
wins. -/
theorem match_barcode_resolution_witness :
    (match_barcode [spZ, spA] "12").supplier = some spZ := by
  have h := (match_barcode_resolution [spZ, spA] "12").2.2.1 [] spZ [spA]
  exact h (by decide) (by decide) (by decide)

-- ==========================================================================
-- Claim C8 (adjustQuantity)
-- ==========================================================================

/-- C8: for an existing entity, `adjust_quantity` fails exactly when
`quantity + delta < 0` (the failure raises before any mutation, so the
transaction leaves the store untouched), and on success the stored and
returned quantity is exactly `quantity + delta`. -/
theorem adjust_quantity_spec (db : DB) (i : Nat) (adj : Int) (u : Nat) (e : Entity)
    (he : findEntity db i = some e) :
    (isOkE (adjust_quantity db i adj u) = false ↔ e.quantity + adj < 0)
    ∧ (∀ p, adjust_quantity db i adj u = .ok p →
        p.2.quantity = e.quantity + adj ∧
        findEntity p.1 i = some { e with quantity := e.quantity + adj }) := by
  unfold adjust_quantity
  rw [he]
  by_cases hneg : e.quantity + adj < 0
  · simp only [if_pos hneg]
    constructor
    · simp [isOkE, hneg]
    · intro p hp
      simp at hp
  · simp only [if_neg hneg]
    constructor
    · simp [isOkE, hneg]
    · intro p hp
      simp only [Except.ok.injEq] at hp
      subst hp
      refine ⟨rfl, ?_⟩
      exact find?_id_update db.entities i e _ he rfl

/-- C8, witness: on an entity with quantity 5, delta `-6` fails and delta
`-5` succeeds with new quantity 0. -/
theorem adjust_quantity_spec_witness :
    isOkE (adjust_quantity aqDB 1 (-6) 3) = false ∧
    (valueOf (adjust_quantity aqDB 1 (-5) 3)).map Entity.quantity = some 0 := by
  constructor
  · exact (adjust_quantity_spec aqDB 1 (-6) 3 aqE rfl).1.mpr (by decide)
  · obtain ⟨p, hp⟩ : ∃ p, adjust_quantity aqDB 1 (-5) 3 = .ok p := ⟨_, rfl⟩
    have h := ((adjust_quantity_spec aqDB 1 (-5) 3 aqE rfl).2 p hp).1
    rw [hp]
    show some p.2.quantity = some 0
    rw [h]
    decide

-- ==========================================================================
-- Claim C7 (split)
-- ==========================================================================

/-- C7: for an existing entity, a split quantity at or above the current
quantity always fails (the check precedes every mutation, so the transaction
leaves the store untouched); and a split with `0 < quantity < current`, a
fresh barcode and a valid target succeeds, with the new entity carrying
exactly the split quantity and the original reduced by it. -/
theorem split_entity_spec (db : DB) (i : Nat) (s : EntitySplit) (u : Nat) (e : Entity)
    (he : findEntity db i = some e) :
    (s.quantity ≥ e.quantity →
      split_entity db i s u
        = .error (.badRequest "Split quantity must be less than current quantity"))
    ∧ (0 < s.quantity → s.quantity < e.quantity →
       findEntityByBarcode db s.new_barcode = none →
       splitTargetOk db e s = true →
       ∃ p, split_entity db i s u = .ok p ∧ p.2.quantity = s.quantity ∧
         findEntity p.1 i = some { e with quantity := e.quantity - s.quantity }) := by
  constructor
  · intro hge
    simp only [split_entity, he]
    rw [if_pos hge]
  · intro _ hlt hbar htgt
    have hnge : ¬ s.quantity ≥ e.quantity := by omega
    unfold splitTargetOk at htgt
    by_cases htp : truthyNat (pyOrNat s.target_parent_id e.parent_id) = true
    · rw [if_pos htp] at htgt
      cases hpar : findEntity db ((pyOrNat s.target_parent_id e.parent_id).getD 0) with
      | none =>
        simp only [hpar] at htgt
        exact absurd htgt (by decide)
      | some parent =>
        simp only [hpar] at htgt
        cases hval : validate_parent_child_relationship db parent e.entity_type with
        | error err =>
          simp only [hval] at htgt
          exact absurd htgt (by decide)
        | ok uu =>
          simp only [split_entity, he, if_neg hnge, hbar, Option.isSome_none,
            Bool.false_eq_true, if_false, htp, if_true, hpar, hval]
          refine ⟨_, rfl, rfl, ?_⟩
          exact find?_id_update _ i e _ (find?_append_some _ _ _ _ he) rfl
    · rw [if_neg htp] at htgt
      simp only [Bool.not_eq_true] at htp
      by_cases htw : truthyNat (pyOrNat s.target_warehouse_id e.warehouse_id) = true
      · rw [if_pos htw] at htgt
        simp only [split_entity, he, if_neg hnge, hbar, Option.isSome_none,
          Bool.false_eq_true, if_false, htp, htw, if_true, htgt,
          Bool.not_true]
        refine ⟨_, rfl, rfl, ?_⟩
        exact find?_id_update _ i e _ (find?_append_some _ _ _ _ he) rfl
      · simp only [Bool.not_eq_true] at htw
        simp only [split_entity, he, if_neg hnge, hbar, Option.isSome_none,
          Bool.false_eq_true, if_false, htp, htw]
        refine ⟨_, rfl, rfl, ?_⟩
        exact find?_id_update _ i e _ (find?_append_some _ _ _ _ he) rfl

/-- C7, witness: on an item with quantity 5, splitting 5 fails; splitting 2
to a fresh barcode succeeds, the new entity has quantity 2 and the original
is reduced to 3. -/
theorem split_entity_spec_witness :
    split_entity spDB 1 spReqBig 2
        = .error (.badRequest "Split quantity must be less than current quantity")
    ∧ (valueOf (split_entity spDB 1 spReq 2)).map Entity.quantity = some 2
    ∧ (stateOf (split_entity spDB 1 spReq 2)).bind
        (fun d => (findEntity d 1).map Entity.quantity) = some 3 := by
  have h1 := (split_entity_spec spDB 1 spReqBig 2 spE rfl).1 (by decide)
  obtain ⟨p, hp, hq, hf⟩ :=
    (split_entity_spec spDB 1 spReq 2 spE rfl).2 (by decide) (by decide) rfl (by decide)
  refine ⟨h1, ?_, ?_⟩
  · rw [hp]
    show some p.2.quantity = some 2
    rw [hq]
    decide
  · rw [hp]
    show (findEntity p.1 1).map Entity.quantity = some 3
    rw [hf]
    decide

-- ==========================================================================
-- Claim C1 (location exclusivity)
-- ==========================================================================

/-- C1, counterexample: the new entity produced by split-and-move can violate
the exclusivity invariant.  Moving 2 of 5 units of an item that sits in
warehouse 1 into a target parent succeeds and yields a new entity with BOTH
`warehouse_id = 1` (copied from the source via the `or`-fallback) and
`parent_id = 2`. -/
theorem move_split_can_set_both_locations :
    (valueOf (move_entity exC1db 1 exC1mv 7)).map
      (fun e => (locationExclusive e, e.warehouse_id, e.parent_id))
      = some (false, some 1, some 2) := by decide

/-- C1, amended: the full (non-split) branch of move does preserve the
invariant: setting a parent clears `warehouse_id` and vice versa, and with no
truthy target the location is unchanged, so a moved entity that satisfied
location-exclusivity still satisfies it.  The split-and-move branch, however,
can produce a new entity with both fields set (see the counterexample), and
create/update do not enforce the exclusivity either. -/
theorem move_full_preserves_location_exclusivity
    (db : DB) (i u : Nat) (mv : EntityMove) (e : Entity)
    (he : findEntity db i = some e)
    (hx : locationExclusive e = true)
    (hfull : ¬(truthyInt mv.quantity = true ∧ mv.quantity.getD 0 < e.quantity)) :
    ∀ p, move_entity db i mv u = .ok p → locationExclusive p.2 = true := by
  intro p hp
  have hc : (truthyInt mv.quantity && decide (mv.quantity.getD 0 < e.quantity)) = false := by
    by_cases h : truthyInt mv.quantity = true
    · have hnlt : ¬ mv.quantity.getD 0 < e.quantity := fun hlt => hfull ⟨h, hlt⟩
      simp [h, hnlt]
    · rw [Bool.not_eq_true] at h
      simp [h]
  simp only [move_entity, he, hc, Bool.false_eq_true, if_false] at hp
  by_cases htp : truthyNat mv.target_parent_id = true
  · simp only [htp, if_true] at hp
    cases hpar : findEntity db (mv.target_parent_id.getD 0) with
    | none => simp [hpar] at hp
    | some np =>
      simp only [hpar] at hp
      by_cases hself : (np.id == e.id) = true
      · simp [hself] at hp
      · simp only [hself, Bool.false_eq_true, if_false] at hp
        cases hval : validate_parent_child_relationship db np e.entity_type with
        | error err => simp [hval] at hp
        | ok uu =>
          simp only [hval, Except.ok.injEq] at hp
          subst hp
          simp [locationExclusive]
  · simp only [htp, Bool.false_eq_true, if_false] at hp
    by_cases htw : truthyNat mv.target_warehouse_id = true
    · simp only [htw, if_true] at hp
      split at hp
      · simp at hp
      · rw [Except.ok.injEq] at hp
        subst hp
        simp [locationExclusive]
    · simp only [htw, Bool.false_eq_true, if_false, Except.ok.injEq] at hp
      subst hp
      simpa [locationExclusive] using hx

/-- C1, witness: the amended theorem applied to a concrete full move into
warehouse 2; the moved entity satisfies the invariant. -/
theorem move_full_preserves_location_exclusivity_witness :
    (valueOf (move_entity wC1db 1 wC1mv 3)).map locationExclusive = some true := by
  obtain ⟨p, hp⟩ : ∃ p, move_entity wC1db 1 wC1mv 3 = .ok p := ⟨_, rfl⟩
  have h := move_full_preserves_location_exclusivity wC1db 1 3 wC1mv wC1e rfl
    (by decide) (by decide) p hp
  rw [hp]
  show some (locationExclusive p.2) = some true
  rw [h]

-- ==========================================================================
-- Claim C10 (convert ignores can_contain_children)
-- ==========================================================================

theorem validate_rejects_when_cannot_contain (db' : DB) (parent : Entity)
    (T : EntityTypeRow) (anyType : String)
    (hfind : db'.entity_types.find? (fun t => t.code == parent.entity_type) = some T)
    (hncc : T.can_contain_children = false) :
    validate_parent_child_relationship db' parent anyType
      = .error (.badRequest "Entity type cannot contain children") := by
  unfold validate_parent_child_relationship
  rw [hfind]
  simp [hncc]

/-- C10: converting an entity that has a tree child to an active type whose
`allowed_child_types` is empty succeeds even when that type's
`can_contain_children` is false (convert checks children only against a
non-empty `allowed_child_types`); the child keeps its `parent_id`, and in the
resulting state `validate_parent_child_relationship` - the check create runs
for a new child - rejects the converted entity as a parent for every child
type. -/
theorem convert_bypasses_can_contain_children
    (db : DB) (i u : Nat) (cv : EntityConvert) (e child : Entity) (T : EntityTypeRow)
    (he : findEntity db i = some e)
    (hnp : truthyNat e.parent_id = false)
    (hchild : findEntity db child.id = some child)
    (hcid : child.id ≠ e.id)
    (hpar : child.parent_id = some e.id)
    (htA : (ensure_default_types db).entity_types.find?
        (fun t => t.code == cv.new_type && t.is_active) = some T)
    (htB : (ensure_default_types db).entity_types.find?
        (fun t => t.code == cv.new_type) = some T)
    (hempty : T.allowed_child_types = [])
    (hncc : T.can_contain_children = false) :
    ∃ p, convert_entity db i cv u = .ok p ∧ p.2.entity_type = cv.new_type ∧
      findEntity p.1 child.id = some child ∧ child.parent_id = some e.id ∧
      ∀ anyType, validate_parent_child_relationship p.1 p.2 anyType
          = .error (.badRequest "Entity type cannot contain children") := by
  simp only [convert_entity, he, validate_entity_type, htA, hnp, Bool.false_eq_true,
    if_false, hempty, List.isEmpty_nil, Bool.not_true, Bool.false_and]
  refine ⟨_, rfl, rfl, ?_, hpar, ?_⟩
  · exact find?_id_keep db.entities child.id child _ hchild (fun hh => hcid hh.symm)
  · intro anyType
    exact validate_rejects_when_cannot_contain _ _ T anyType htB hncc

/-- C10, witness: converting a container that holds an item to the builtin
type `"item"` (leaf, empty `allowed_child_types`) succeeds; the child is
still parented to it, and the containment check would reject recreating that
configuration. -/
theorem convert_bypasses_can_contain_children_witness :
    (valueOf (convert_entity cvDB 1 cvReq 3)).map Entity.entity_type = some "item"
    ∧ (stateOf (convert_entity cvDB 1 cvReq 3)).bind
        (fun d => (findEntity d 2).map Entity.parent_id) = some (some 1)
    ∧ validate_parent_child_relationship
        ((stateOf (convert_entity cvDB 1 cvReq 3)).getD {})
        ((valueOf (convert_entity cvDB 1 cvReq 3)).getD dummyEntity) "item"
      = .error (.badRequest "Entity type cannot contain children") := by
  obtain ⟨p, hp, hty, hfd, hp2, hval⟩ :=
    convert_bypasses_can_contain_children cvDB 1 3 cvReq cvA cvB cvT rfl rfl rfl
      (by decide) rfl rfl rfl (by decide) (by decide)
  refine ⟨?_, ?_, ?_⟩
  · rw [hp]
    show some p.2.entity_type = some "item"
    rw [hty]
    rfl
  · rw [hp]
    show (findEntity p.1 cvB.id).map Entity.parent_id = some (some 1)
    rw [hfd]
    rfl
  · rw [hp]
    exact hval "item"

-- ==========================================================================
-- Claim C6 (addChild with removeFromSource)
-- ==========================================================================

theorem barcode_retrievable_after_set (db : DB) (child child' : Entity) (b : String)
    (hmem : child ∈ db.entities) (hid : child'.id = child.id)
    (hbc : child'.barcode = b) :
    (findEntityByBarcode (setEntity db child') b).isSome = true := by
  unfold findEntityByBarcode setEntity
  rw [List.find?_isSome]
  refine ⟨child', ?_, by simp [hbc]⟩
  have hm := List.mem_map_of_mem (fun x => if x.id == child'.id then child' else x) hmem
  simpa [hid] using hm

/-- C6: `add_child_to_entity` with `remove_from_source = true` and a quantity
within the child's own quantity succeeds; the returned relation carries
exactly the requested quantity (accumulated onto an existing
`(parent, child)` relation when there is one), the child's own quantity is
decremented by exactly that amount (never below zero, since the amount is
bounded by it), and the child row is never deleted - it remains retrievable
by its barcode. -/
theorem add_child_remove_from_source_spec
    (db : DB) (pid u : Nat) (c : AddChildRequest) (parent child : Entity)
    (hp : findEntity db pid = some parent)
    (hbar : truthyStr c.child_barcode = true)
    (hcb : findEntityByBarcode db (c.child_barcode.getD "") = some child)
    (hcid : findEntity db child.id = some child)
    (hv : validate_parent_child_relationship db parent child.entity_type = .ok ())
    (hr : c.remove_from_source = true)
    (hq : c.quantity ≤ child.quantity) :
    ∃ p, add_child_to_entity db pid c u = .ok p ∧
      p.2.quantity = (match db.relations.find?
          (fun r => r.parent_id == pid && r.child_id == child.id) with
        | some ex => ex.quantity + c.quantity
        | none => c.quantity) ∧
      findEntity p.1 child.id = some { child with quantity := child.quantity - c.quantity } ∧
      (findEntityByBarcode p.1 child.barcode).isSome = true := by
  have hqle : ¬ (c.quantity > child.quantity) := not_lt.mpr hq
  have hcheck : (true && decide (c.quantity > child.quantity)) = false := by
    simp [hqle]
  have hmem : child ∈ db.entities := List.mem_of_find?_eq_some hcb
  simp only [add_child_to_entity, hp, hbar, if_true, hcb, hv, hcheck,
    Bool.false_eq_true, if_false, hr]
  cases hrel : db.relations.find?
      (fun r => r.parent_id == pid && r.child_id == child.id) with
  | some ex =>
    simp only [hrel]
    by_cases hge : c.quantity ≥ child.quantity
    · have h0 : ({ child with quantity := child.quantity - c.quantity } : Entity)
          = { child with quantity := 0 } := by
        have : child.quantity - c.quantity = 0 := by omega
        rw [this]
      simp only [if_pos hge]
      refine ⟨_, rfl, rfl, ?_, ?_⟩
      · rw [h0]
        exact find?_id_update _ child.id child _ hcid rfl
      · exact barcode_retrievable_after_set _ child _ _ hmem rfl rfl
    · simp only [if_neg hge]
      refine ⟨_, rfl, rfl, ?_, ?_⟩
      · exact find?_id_update _ child.id child _ hcid rfl
      · exact barcode_retrievable_after_set _ child _ _ hmem rfl rfl
  | none =>
    simp only [hrel]
    by_cases hge : c.quantity ≥ child.quantity
    · have h0 : ({ child with quantity := child.quantity - c.quantity } : Entity)
          = { child with quantity := 0 } := by
        have : child.quantity - c.quantity = 0 := by omega
        rw [this]
      simp only [if_pos hge]
      refine ⟨_, rfl, rfl, ?_, ?_⟩
      · rw [h0]
        exact find?_id_update _ child.id child _ hcid rfl
      · exact barcode_retrievable_after_set _ child _ _ hmem rfl rfl
    · simp only [if_neg hge]
      refine ⟨_, rfl, rfl, ?_, ?_⟩
      · exact find?_id_update _ child.id child _ hcid rfl
      · exact barcode_retrievable_after_set _ child _ _ hmem rfl rfl

/-- C6, witness: the spec's concrete scenario.  Child quantity 5; addChild of
3 creates a relation of quantity 3 and leaves the child at 2; a second
addChild of 2 accumulates the relation to 5, the child reaches 0 and is still
retrievable by barcode. -/
theorem add_child_remove_from_source_spec_witness :
    (valueOf acRes1).map EntityRelation.quantity = some 3
    ∧ (stateOf acRes1).bind (fun d => (findEntity d acI.id).map Entity.quantity) = some 2
    ∧ (valueOf acRes2).map EntityRelation.quantity = some 5
    ∧ (stateOf acRes2).bind (fun d => (findEntity d acI1.id).map Entity.quantity) = some 0
    ∧ (stateOf acRes2).map (fun d => (findEntityByBarcode d acI1.barcode).isSome)
        = some true := by
  obtain ⟨p1, hp1, hq1, hf1, hb1⟩ :=
    add_child_remove_from_source_spec acDB 1 2 acReq1 acC acI rfl rfl rfl rfl rfl rfl
      (by decide)
  obtain ⟨p2, hp2, hq2, hf2, hb2⟩ :=
    add_child_remove_from_source_spec acDB1 1 2 acReq2 acC1 acI1 rfl rfl rfl rfl rfl rfl
      (by decide)
  refine ⟨?_, ?_, ?_, ?_, ?_⟩
  · simp only [acRes1]
    rw [hp1]
    show some p1.2.quantity = some 3
    rw [hq1]
    decide
  · simp only [acRes1]
    rw [hp1]
    show (findEntity p1.1 acI.id).map Entity.quantity = some 2
    rw [hf1]
    decide
  · simp only [acRes2]
    rw [hp2]
    show some p2.2.quantity = some 5
    rw [hq2]
    decide
  · simp only [acRes2]
    rw [hp2]
    show (findEntity p2.1 acI1.id).map Entity.quantity = some 0
    rw [hf2]
    decide
  · simp only [acRes2]
    rw [hp2]
    show some (findEntityByBarcode p2.1 acI1.barcode).isSome = some true
    rw [hb2]

-- ==========================================================================
-- Claim C3 (merge per-source error handling)
-- ==========================================================================

theorem merge_step_preserves_none (db : DB) (tid sid : Nat) (q : Int) (u : Nat)
    (j : Nat) (hj : findEntity db j = none) :
    findEntity (deleteEntityRow
      (log_history (reparentChildren (bumpQuantity db tid q) sid tid)
        tid .merge (some u) (some sid)) sid) j = none := by
  have hf1 : ∀ e : Entity,
      ((fun e : Entity => if e.id == tid then { e with quantity := e.quantity + q }
        else e) e).id = e.id := by
    intro e
    by_cases h : (e.id == tid) = true <;> simp [h]
  have hf2 : ∀ e : Entity,
      ((fun e : Entity => if e.parent_id == some sid then { e with parent_id := some tid }
        else e) e).id = e.id := by
    intro e
    by_cases h : (e.parent_id == some sid) = true <;> simp [h]
  exact find?_id_none_filter _ _ _
    (find?_id_none_map _ _ _ hf2 (find?_id_none_map _ _ _ hf1 hj))

theorem merge_step_preserves_found (db : DB) (tid sid : Nat) (q : Int) (u : Nat)
    (w : Nat) (src : Entity) (hws : w ≠ sid) (h : findEntity db w = some src) :
    ∃ src', findEntity (deleteEntityRow
        (log_history (reparentChildren (bumpQuantity db tid q) sid tid)
          tid .merge (some u) (some sid)) sid) w = some src'
      ∧ src'.entity_type = src.entity_type := by
  have hf : ∀ e : Entity,
      (((fun e : Entity => if e.parent_id == some sid then { e with parent_id := some tid }
          else e) ∘
        (fun e : Entity => if e.id == tid then { e with quantity := e.quantity + q }
          else e)) e).id = e.id := by
    intro e
    simp only [Function.comp]
    by_cases h1 : (e.id == tid) = true <;>
      by_cases h2 : ((if e.id == tid then { e with quantity := e.quantity + q } else e).parent_id
        == some sid) = true <;> simp_all
  have hmain := find?_id_map_filter db.entities w sid hws _ hf src h
  rw [← List.map_map] at hmain
  refine ⟨_, hmain, ?_⟩
  simp only [Function.comp]
  by_cases h1 : (src.id == tid) = true <;>
    by_cases h2 : ((if src.id == tid then { src with quantity := src.quantity + q }
      else src).parent_id == some sid) = true <;> simp_all

theorem merge_loop_preserves_absent (tid : Nat) (tt : String) (u : Nat) :
    ∀ (sids : List Nat) (db : DB) (j : Nat), findEntity db j = none →
      ∀ db', merge_loop tid tt u db sids = .ok db' → findEntity db' j = none := by
  intro sids
  induction sids with
  | nil =>
    intro db j hj db' h
    simp only [merge_loop, Except.ok.injEq] at h
    subst h
    exact hj
  | cons sid rest ih =>
    intro db j hj db' h
    simp only [merge_loop] at h
    by_cases hst : (sid == tid) = true
    · rw [if_pos hst] at h
      exact ih db j hj db' h
    · rw [if_neg hst] at h
      cases hfs : findEntity db sid with
      | none =>
        simp only [hfs] at h
        exact ih db j hj db' h
      | some source =>
        simp only [hfs] at h
        by_cases hty : (source.entity_type != tt) = true
        · rw [if_pos hty] at h
          simp at h
        · rw [if_neg hty] at h
          exact ih _ j (merge_step_preserves_none db tid sid source.quantity u j hj) db' h

theorem merge_loop_skip_eq (tid : Nat) (tt : String) (u : Nat) (dbO : DB) :
    ∀ (sids : List Nat) (db : DB),
      (∀ j, findEntity dbO j = none → findEntity db j = none) →
      merge_loop tid tt u db sids
        = merge_loop tid tt u db
            (sids.filter (fun s => s != tid && (findEntity dbO s).isSome)) := by
  intro sids
  induction sids with
  | nil => intro db _; rfl
  | cons sid rest ih =>
    intro db hmono
    by_cases hst : (sid == tid) = true
    · have hdrop : (sid != tid && (findEntity dbO sid).isSome) = false := by
        simp only [bne, hst, Bool.not_true, Bool.false_and]
      rw [List.filter_cons, if_neg (by simp [hdrop])]
      simp only [merge_loop, if_pos hst]
      exact ih db hmono
    · cases hfO : findEntity dbO sid with
      | none =>
        have hfdb : findEntity db sid = none := hmono sid hfO
        have hdrop : (sid != tid && (findEntity dbO sid).isSome) = false := by
          rw [hfO]
          simp
        rw [List.filter_cons, if_neg (by simp [hdrop])]
        simp only [merge_loop, if_neg hst, hfdb]
        exact ih db hmono
      | some src0 =>
        have hkeep : (sid != tid && (findEntity dbO sid).isSome) = true := by
          rw [hfO]
          simp [bne, hst]
        rw [List.filter_cons, if_pos hkeep]
        simp only [merge_loop, if_neg hst]
        cases hfdb : findEntity db sid with
        | none =>
          simp only [hfdb]
          exact ih db hmono
        | some source =>
          simp only [hfdb]
          by_cases hty : (source.entity_type != tt) = true
          · simp only [if_pos hty]
          · simp only [if_neg hty]
            exact ih _ (fun j hj =>
              merge_step_preserves_none db tid sid source.quantity u j (hmono j hj))

theorem merge_loop_mismatch_error (tid : Nat) (tt : String) (u : Nat) :
    ∀ (sids : List Nat) (db : DB) (w : Nat) (src : Entity),
      w ∈ sids → w ≠ tid → findEntity db w = some src → src.entity_type ≠ tt →
      merge_loop tid tt u db sids
        = .error (.badRequest "Cannot merge entities of different types") := by
  intro sids
  induction sids with
  | nil =>
    intro db w src hmem
    simp at hmem
  | cons sid rest ih =>
    intro db w src hmem hwt hfw hty
    simp only [merge_loop]
    by_cases hst : (sid == tid) = true
    · rw [if_pos hst]
      have hsid : sid = tid := by simpa using hst
      have hwr : w ∈ rest := by
        rcases List.mem_cons.mp hmem with h | h
        · exact absurd (h.trans hsid) hwt
        · exact h
      exact ih db w src hwr hwt hfw hty
    · rw [if_neg hst]
      by_cases hws : w = sid
      · subst hws
        simp only [hfw]
        have : (src.entity_type != tt) = true := by simpa using hty
        rw [if_pos this]
      · have hwr : w ∈ rest := by
          rcases List.mem_cons.mp hmem with h | h
          · exact absurd h hws
          · exact h
        cases hfs : findEntity db sid with
        | none =>
          simp only [hfs]
          exact ih db w src hwr hwt hfw hty
        | some source =>
          simp only [hfs]
          by_cases hmty : (source.entity_type != tt) = true
          · rw [if_pos hmty]
          · rw [if_neg hmty]
            obtain ⟨src', hfind', hty'⟩ :=
              merge_step_preserves_found db tid sid source.quantity u w src
                (fun h => hws h) hfw
            exact ih _ w src' hwr hwt hfind' (hty' ▸ hty)

theorem find?_filter_ne_self (l : List Entity) (s : Nat) :
    (l.filter (fun x => x.id != s)).find? (fun x => x.id == s) = none := by
  rw [List.find?_eq_none]
  intro x hx
  have := (List.mem_filter.mp hx).2
  simp only [bne_iff_ne, ne_eq] at this
  simp [this]

theorem mergeMapsPreserveId (tid sid : Nat) (q : Int) :
    ∀ e : Entity,
      (((fun e : Entity => if e.parent_id == some sid then { e with parent_id := some tid }
          else e) ∘
        (fun e : Entity => if e.id == tid then { e with quantity := e.quantity + q }
          else e)) e).id = e.id := by
  intro e
  simp only [Function.comp]
  by_cases h1 : (e.id == tid) = true <;>
    by_cases h2 : ((if e.id == tid then { e with quantity := e.quantity + q } else e).parent_id
      == some sid) = true <;> simp_all

/-- The exact surviving row of a non-deleted, non-target entity after one
merge-loop step: only its `parent_id` may change (when it was a child of the
deleted source). -/
theorem merge_step_row_eq (db : DB) (tid sid : Nat) (q : Int) (u : Nat)
    (w : Nat) (src : Entity) (hws : w ≠ sid) (hwt : w ≠ tid)
    (h : findEntity db w = some src) :
    findEntity (deleteEntityRow
      (log_history (reparentChildren (bumpQuantity db tid q) sid tid)
        tid .merge (some u) (some sid)) sid) w
      = some (if src.parent_id == some sid then { src with parent_id := some tid }
              else src) := by
  have hid : src.id = w := by simpa using List.find?_some h
  have hmain := find?_id_map_filter db.entities w sid hws _ (mergeMapsPreserveId tid sid q) src h
  rw [← List.map_map] at hmain
  have hval :
      ((fun e : Entity => if e.parent_id == some sid then { e with parent_id := some tid }
          else e) ∘
        (fun e : Entity => if e.id == tid then { e with quantity := e.quantity + q }
          else e)) src
      = (if src.parent_id == some sid then { src with parent_id := some tid } else src) := by
    simp only [Function.comp]
    rw [if_neg (show ¬ (src.id == tid) = true by simp [hid, hwt])]
  rw [hval] at hmain
  exact hmain

/-- One merge-loop step adds exactly the source's quantity onto the target
row. -/
theorem merge_step_target_quantity (db : DB) (tid sid : Nat) (q : Int) (u : Nat)
    (trow : Entity) (hts : tid ≠ sid) (h : findEntity db tid = some trow) :
    (findEntity (deleteEntityRow
      (log_history (reparentChildren (bumpQuantity db tid q) sid tid)
        tid .merge (some u) (some sid)) sid) tid).map Entity.quantity
      = some (trow.quantity + q) := by
  have hid : trow.id = tid := by simpa using List.find?_some h
  have hmain := find?_id_map_filter db.entities tid sid hts _ (mergeMapsPreserveId tid sid q) trow h
  rw [← List.map_map] at hmain
  rw [show findEntity (deleteEntityRow
      (log_history (reparentChildren (bumpQuantity db tid q) sid tid)
        tid .merge (some u) (some sid)) sid) tid
    = _ from hmain]
  simp only [Function.comp]
  rw [if_pos (show (trow.id == tid) = true by simp [hid])]
  by_cases hp : (({ trow with quantity := trow.quantity + q } : Entity).parent_id
      == some sid) = true
  · rw [if_pos hp]
    rfl
  · rw [if_neg hp]
    rfl

/-- A row found after one merge-loop step was not the deleted source and
existed before the step with the same entity type. -/
theorem merge_step_type_back (db : DB) (tid sid : Nat) (q : Int) (u : Nat)
    (s : Nat) (src4 : Entity)
    (hf4 : findEntity (deleteEntityRow
      (log_history (reparentChildren (bumpQuantity db tid q) sid tid)
        tid .merge (some u) (some sid)) sid) s = some src4) :
    s ≠ sid ∧ ∃ src0, findEntity db s = some src0
      ∧ src0.entity_type = src4.entity_type := by
  have hss : s ≠ sid := by
    intro hh
    subst hh
    rw [show findEntity (deleteEntityRow
        (log_history (reparentChildren (bumpQuantity db tid q) s tid)
          tid .merge (some u) (some s)) s) s = none
      from find?_filter_ne_self _ s] at hf4
    cases hf4
  refine ⟨hss, ?_⟩
  cases hfo : findEntity db s with
  | none =>
    rw [merge_step_preserves_none db tid sid q u s hfo] at hf4
    cases hf4
  | some src0 =>
    obtain ⟨src', hs', hty'⟩ := merge_step_preserves_found db tid sid q u s src0 hss hfo
    rw [hs'] at hf4
    cases hf4
    exact ⟨src0, rfl, hty'.symm⟩

/-- A row that is not a source, not the target, and already parented to the
target passes through the rest of the merge loop unchanged. -/
theorem merge_loop_keeps_row (tid : Nat) (tt : String) (u : Nat) :
    ∀ (sids : List Nat) (db : DB) (c : Entity),
      findEntity db c.id = some c → c.id ∉ sids → c.id ≠ tid → c.parent_id = some tid →
      ∀ db', merge_loop tid tt u db sids = .ok db' → findEntity db' c.id = some c := by
  intro sids
  induction sids with
  | nil =>
    intro db c hc _ _ _ db' h
    simp only [merge_loop, Except.ok.injEq] at h
    subst h
    exact hc
  | cons sid rest ih =>
    intro db c hc hnot hct hpar db' h
    have hnots : c.id ≠ sid ∧ c.id ∉ rest := by
      simpa [List.mem_cons, not_or] using hnot
    simp only [merge_loop] at h
    by_cases hst : (sid == tid) = true
    · rw [if_pos hst] at h
      exact ih db c hc hnots.2 hct hpar db' h
    · rw [if_neg hst] at h
      cases hfs : findEntity db sid with
      | none =>
        simp only [hfs] at h
        exact ih db c hc hnots.2 hct hpar db' h
      | some source =>
        simp only [hfs] at h
        by_cases hty : (source.entity_type != tt) = true
        · rw [if_pos hty] at h
          simp at h
        · rw [if_neg hty] at h
          have hstep := merge_step_row_eq db tid sid source.quantity u c.id c
            hnots.1 hct hc
          have hcpne : (c.parent_id == some sid) = false := by
            rw [hpar]
            simp
            intro hh
            exact absurd (by simp [hh] : (sid == tid) = true) hst
          rw [hcpne] at hstep
          simp only [Bool.false_eq_true, if_false] at hstep
          exact ih _ c hstep hnots.2 hct hpar db' h

/-- Across a merge loop in which every found source type-matches, the target
row accumulates exactly the sum of the quantities of the distinct processed
(found, non-target) sources. -/
theorem merge_loop_target_quantity (tid : Nat) (tt : String) (u : Nat) :
    ∀ (sids : List Nat) (db : DB) (tq : Int),
      sids.Nodup →
      (∀ s ∈ sids, s ≠ tid → ∀ src, findEntity db s = some src → src.entity_type = tt) →
      (findEntity db tid).map Entity.quantity = some tq →
      ∀ db', merge_loop tid tt u db sids = .ok db' →
      (findEntity db' tid).map Entity.quantity
        = some (tq + ((sids.filter (fun s => s != tid && (findEntity db s).isSome)).map
            (fun s => ((findEntity db s).map Entity.quantity).getD 0)).sum) := by
  intro sids
  induction sids with
  | nil =>
    intro db tq _ _ htq db' h
    simp only [merge_loop, Except.ok.injEq] at h
    subst h
    simpa using htq
  | cons sid rest ih =>
    intro db tq hnd hall htq db' h
    have hnd' : rest.Nodup := (List.nodup_cons.mp hnd).2
    have hsid_notin : sid ∉ rest := (List.nodup_cons.mp hnd).1
    simp only [merge_loop] at h
    by_cases hst : (sid == tid) = true
    · rw [if_pos hst] at h
      have hdrop : (sid != tid && (findEntity db sid).isSome) = false := by
        simp only [bne, hst, Bool.not_true, Bool.false_and]
      rw [List.filter_cons, if_neg (by simp [hdrop])]
      exact ih db tq hnd' (fun s hs => hall s (List.mem_cons_of_mem _ hs)) htq db' h
    · rw [if_neg hst] at h
      have hsidt : sid ≠ tid := by simpa using hst
      cases hfs : findEntity db sid with
      | none =>
        simp only [hfs] at h
        have hdrop : (sid != tid && (findEntity db sid).isSome) = false := by
          rw [hfs]
          simp
        rw [List.filter_cons, if_neg (by simp [hdrop])]
        exact ih db tq hnd' (fun s hs => hall s (List.mem_cons_of_mem _ hs)) htq db' h
      | some source =>
        simp only [hfs] at h
        have hmty : source.entity_type = tt := hall sid (by simp) hsidt source hfs
        have hne2 : (source.entity_type != tt) = false := by simp [hmty]
        rw [hne2] at h
        simp only [Bool.false_eq_true, if_false] at h
        cases hrow : findEntity db tid with
        | none =>
          rw [hrow] at htq
          simp at htq
        | some trow =>
          rw [hrow] at htq
          simp only [Option.map_some', Option.some.injEq] at htq
          have htq4 : (findEntity (deleteEntityRow
              (log_history (reparentChildren (bumpQuantity db tid source.quantity) sid tid)
                tid .merge (some u) (some sid)) sid) tid).map Entity.quantity
              = some (tq + source.quantity) := by
            rw [merge_step_target_quantity db tid sid source.quantity u trow
              (fun hh => hsidt hh.symm) hrow, htq]
          have hall4 : ∀ s ∈ rest, s ≠ tid → ∀ src4,
              findEntity (deleteEntityRow
                (log_history (reparentChildren (bumpQuantity db tid source.quantity) sid tid)
                  tid .merge (some u) (some sid)) sid) s = some src4 →
              src4.entity_type = tt := by
            intro s hs hstid src4 hf4
            obtain ⟨hss, src0, hf0, hty0⟩ :=
              merge_step_type_back db tid sid source.quantity u s src4 hf4
            rw [← hty0]
            exact hall s (List.mem_cons_of_mem _ hs) hstid src0 hf0
          have ihres := ih _ (tq + source.quantity) hnd' hall4 htq4 db' h
          have hfe : rest.filter (fun s => s != tid &&
                (findEntity (deleteEntityRow
                  (log_history (reparentChildren (bumpQuantity db tid source.quantity) sid tid)
                    tid .merge (some u) (some sid)) sid) s).isSome)
              = rest.filter (fun s => s != tid && (findEntity db s).isSome) := by
            apply List.filter_congr
            intro x hx
            have hxsid : x ≠ sid := fun hh => hsid_notin (hh ▸ hx)
            by_cases hxt : (x != tid) = true
            · simp only [hxt, Bool.true_and]
              cases hfo : findEntity db x with
              | none =>
                rw [merge_step_preserves_none db tid sid source.quantity u x hfo]
              | some srow =>
                obtain ⟨srow', hs', _⟩ :=
                  merge_step_preserves_found db tid sid source.quantity u x srow hxsid hfo
                rw [hs']
                rfl
            · have hxf : (x != tid) = false := by simpa using hxt
              simp only [hxf, Bool.false_and]
          have hme : (rest.filter (fun s => s != tid && (findEntity db s).isSome)).map
                (fun s => ((findEntity (deleteEntityRow
                  (log_history (reparentChildren (bumpQuantity db tid source.quantity) sid tid)
                    tid .merge (some u) (some sid)) sid) s).map Entity.quantity).getD 0)
              = (rest.filter (fun s => s != tid && (findEntity db s).isSome)).map
                (fun s => ((findEntity db s).map Entity.quantity).getD 0) := by
            apply List.map_congr_left
            intro x hx
            have hxr : x ∈ rest := (List.mem_filter.mp hx).1
            have hxp := (List.mem_filter.mp hx).2
            simp only [Bool.and_eq_true] at hxp
            have hxsid : x ≠ sid := fun hh => hsid_notin (hh ▸ hxr)
            have hxt : x ≠ tid := by simpa using hxp.1
            cases hfo : findEntity db x with
            | none =>
              rw [hfo] at hxp
              simp at hxp
            | some srow =>
              have hstep := merge_step_row_eq db tid sid source.quantity u x srow
                hxsid hxt hfo
              rw [hstep]
              by_cases hpp : (srow.parent_id == some sid) = true
              · rw [if_pos hpp]
                rfl
              · rw [if_neg hpp]
          rw [hfe, hme] at ihres
          have hkeep : (sid != tid && (findEntity db sid).isSome) = true := by
            rw [hfs]
            simp [bne, hst]
          rw [List.filter_cons, if_pos hkeep, List.map_cons, List.sum_cons, ihres, hfs]
          simp only [Option.map_some', Option.getD_some]
          rw [Int.add_assoc]

/-- Across a merge loop in which every found source type-matches, every tree
child of a processed source that is not itself a source (and not the target)
survives with its `parent_id` moved onto the target. -/
theorem merge_loop_reparents (tid : Nat) (tt : String) (u : Nat) :
    ∀ (sids : List Nat) (db : DB) (c : Entity) (s : Nat),
      (∀ s' ∈ sids, s' ≠ tid → ∀ src, findEntity db s' = some src → src.entity_type = tt) →
      findEntity db c.id = some c → c.parent_id = some s →
      s ∈ sids → s ≠ tid → (findEntity db s).isSome = true →
      c.id ∉ sids → c.id ≠ tid →
      ∀ db', merge_loop tid tt u db sids = .ok db' →
      ∃ c', findEntity db' c.id = some c' ∧ c'.parent_id = some tid := by
  intro sids
  induction sids with
  | nil =>
    intro db c s _ _ _ hmem
    simp at hmem
  | cons sid rest ih =>
    intro db c s hall hc hcp hmem hstid hsfound hcnot hct db' h
    have hcnots : c.id ≠ sid ∧ c.id ∉ rest := by
      simpa [List.mem_cons, not_or] using hcnot
    simp only [merge_loop] at h
    by_cases hst : (sid == tid) = true
    · rw [if_pos hst] at h
      have hsid : sid = tid := by simpa using hst
      have hsr : s ∈ rest := by
        rcases List.mem_cons.mp hmem with hh | hh
        · exact absurd (hh.trans hsid) hstid
        · exact hh
      exact ih db c s (fun s' hs' => hall s' (List.mem_cons_of_mem _ hs'))
        hc hcp hsr hstid hsfound hcnots.2 hct db' h
    · rw [if_neg hst] at h
      have hsidt : sid ≠ tid := by simpa using hst
      cases hfs : findEntity db sid with
      | none =>
        simp only [hfs] at h
        by_cases hssid : s = sid
        · subst hssid
          rw [hfs] at hsfound
          simp at hsfound
        · have hsr : s ∈ rest := by
            rcases List.mem_cons.mp hmem with hh | hh
            · exact absurd hh hssid
            · exact hh
          exact ih db c s (fun s' hs' => hall s' (List.mem_cons_of_mem _ hs'))
            hc hcp hsr hstid hsfound hcnots.2 hct db' h
      | some source =>
        simp only [hfs] at h
        have hmty : source.entity_type = tt := hall sid (by simp) hsidt source hfs
        have hne2 : (source.entity_type != tt) = false := by simp [hmty]
        rw [hne2] at h
        simp only [Bool.false_eq_true, if_false] at h
        by_cases hssid : s = sid
        · subst hssid
          have hrow := merge_step_row_eq db tid s source.quantity u c.id c
            hcnots.1 hct hc
          rw [hcp] at hrow
          simp only [beq_self_eq_true, if_true] at hrow
          refine ⟨{ c with parent_id := some tid }, ?_, rfl⟩
          exact merge_loop_keeps_row tid tt u rest _ { c with parent_id := some tid }
            hrow hcnots.2 hct rfl db' h
        · have hsr : s ∈ rest := by
            rcases List.mem_cons.mp hmem with hh | hh
            · exact absurd hh hssid
            · exact hh
          have hrow := merge_step_row_eq db tid sid source.quantity u c.id c
            hcnots.1 hct hc
          have hcpne : (c.parent_id == some sid) = false := by
            rw [hcp]
            simp [hssid]
          rw [hcpne] at hrow
          simp only [Bool.false_eq_true, if_false] at hrow
          have hsfound4 : (findEntity (deleteEntityRow
              (log_history (reparentChildren (bumpQuantity db tid source.quantity) sid tid)
                tid .merge (some u) (some sid)) sid) s).isSome = true := by
            cases hfo : findEntity db s with
            | none =>
              rw [hfo] at hsfound
              simp at hsfound
            | some srowS =>
              obtain ⟨srow', hs', _⟩ :=
                merge_step_preserves_found db tid sid source.quantity u s srowS hssid hfo
              rw [hs']
              rfl
          have hall4 : ∀ s' ∈ rest, s' ≠ tid → ∀ src4,
              findEntity (deleteEntityRow
                (log_history (reparentChildren (bumpQuantity db tid source.quantity) sid tid)
                  tid .merge (some u) (some sid)) sid) s' = some src4 →
              src4.entity_type = tt := by
            intro s' hs' hstid' src4 hf4
            obtain ⟨hss, src0, hf0, hty0⟩ :=
              merge_step_type_back db tid sid source.quantity u s' src4 hf4
            rw [← hty0]
            exact hall s' (List.mem_cons_of_mem _ hs') hstid' src0 hf0
          exact ih _ c s hall4 hrow hcp hsr hstid hsfound4 hcnots.2 hct db' h

theorem merge_loop_all_match_ok (tid : Nat) (tt : String) (u : Nat) :
    ∀ (sids : List Nat) (db : DB),
      (∀ s ∈ sids, s ≠ tid → ∀ src, findEntity db s = some src → src.entity_type = tt) →
      ∃ db', merge_loop tid tt u db sids = .ok db' ∧
        ∀ s ∈ sids, s ≠ tid → findEntity db' s = none := by
  intro sids
  induction sids with
  | nil =>
    intro db _
    exact ⟨db, rfl, by simp⟩
  | cons sid rest ih =>
    intro db hall
    simp only [merge_loop]
    by_cases hst : (sid == tid) = true
    · rw [if_pos hst]
      have hsid : sid = tid := by simpa using hst
      obtain ⟨db', hok, hdel⟩ :=
        ih db (fun s hs => hall s (List.mem_cons_of_mem _ hs))
      refine ⟨db', hok, ?_⟩
      intro s hs hstid
      rcases List.mem_cons.mp hs with h | h
      · exact absurd (h.trans hsid) hstid
      · exact hdel s h hstid
    · rw [if_neg hst]
      have hsidt : sid ≠ tid := by simpa using hst
      cases hfs : findEntity db sid with
      | none =>
        simp only [hfs]
        obtain ⟨db', hok, hdel⟩ :=
          ih db (fun s hs => hall s (List.mem_cons_of_mem _ hs))
        refine ⟨db', hok, ?_⟩
        intro s hs hstid
        rcases List.mem_cons.mp hs with h | h
        · subst h
          exact merge_loop_preserves_absent tid tt u rest db s hfs db' hok
        · exact hdel s h hstid
      | some source =>
        have hmty : source.entity_type = tt :=
          hall sid (by simp) hsidt source hfs
        have hne : (source.entity_type != tt) = false := by simp [hmty]
        simp only [hfs, hne, Bool.false_eq_true, if_false]
        have hdel4 : findEntity (deleteEntityRow
            (log_history (reparentChildren (bumpQuantity db tid source.quantity) sid tid)
              tid .merge (some u) (some sid)) sid) sid = none :=
          find?_filter_ne_self _ sid
        have hall4 : ∀ s ∈ rest, s ≠ tid → ∀ src,
            findEntity (deleteEntityRow
              (log_history (reparentChildren (bumpQuantity db tid source.quantity) sid tid)
                tid .merge (some u) (some sid)) sid) s = some src →
            src.entity_type = tt := by
          intro s hs hstid src4 hf4
          by_cases hssid : s = sid
          · subst hssid
            rw [hdel4] at hf4
            cases hf4
          · cases hforig : findEntity db s with
            | none =>
              rw [merge_step_preserves_none db tid sid source.quantity u s hforig] at hf4
              cases hf4
            | some src0 =>
              obtain ⟨src', hfind', htype⟩ :=
                merge_step_preserves_found db tid sid source.quantity u s src0 hssid hforig
              rw [hfind'] at hf4
              cases hf4
              rw [htype]
              exact hall s (List.mem_cons_of_mem _ hs) hstid src0 hforig
        obtain ⟨db', hok, hdel⟩ := ih _ hall4
        refine ⟨db', hok, ?_⟩
        intro s hs hstid
        rcases List.mem_cons.mp hs with h | h
        · subst h
          exact merge_loop_preserves_absent tid tt u rest _ s hdel4 db' hok
        · exact hdel s h hstid

/-- C3, counterexample: a source whose type differs from the target's is not
"skipped non-fatally" - it aborts the entire merge with a 400 error.  Merging
the item (id 2) into the container (id 1) returns the type-mismatch error
instead of a successful merge. -/
theorem merge_aborts_on_type_mismatch :
    merge_entities exC3db 1 [2] 5
      = .error (.badRequest "Cannot merge entities of different types") := rfl

/-- C3, amended: a source whose LOOKUP fails (id not found, or equal to the
target id) is skipped non-fatally - the merge behaves exactly as if those ids
were absent from the list; but a source that is found and fails the
TYPE-check aborts the whole merge with an error (and, the operation being one
transaction, no staged change survives - in this embedding an error returns
no state at all).  When every non-skipped source passes the type check the
merge succeeds, every such source is deleted, the target's quantity grows by
exactly the sum of the distinct processed sources' quantities, and every
surviving tree child of a processed source is reparented onto the target. -/
theorem merge_skip_and_abort_semantics (db : DB) (tid u : Nat) (sids : List Nat)
    (target : Entity) (ht : findEntity db tid = some target) :
    (merge_entities db tid sids u
      = merge_entities db tid
          (sids.filter (fun s => s != tid && (findEntity db s).isSome)) u)
    ∧ ((∃ w ∈ sids, w ≠ tid ∧ ∃ src, findEntity db w = some src ∧
          src.entity_type ≠ target.entity_type) →
        merge_entities db tid sids u
          = .error (.badRequest "Cannot merge entities of different types"))
    ∧ ((∀ s ∈ sids, s ≠ tid → ∀ src, findEntity db s = some src →
          src.entity_type = target.entity_type) →
        ∃ p, merge_entities db tid sids u = .ok p
          ∧ (∀ s ∈ sids, s ≠ tid → findEntity p.1 s = none)
          ∧ (sids.Nodup →
              (findEntity p.1 tid).map Entity.quantity
                = some (target.quantity
                    + ((sids.filter (fun s => s != tid && (findEntity db s).isSome)).map
                        (fun s => ((findEntity db s).map Entity.quantity).getD 0)).sum))
          ∧ (∀ c s, findEntity db c.id = some c → c.parent_id = some s →
              s ∈ sids → s ≠ tid → (findEntity db s).isSome = true →
              c.id ∉ sids → c.id ≠ tid →
              ∃ c', findEntity p.1 c.id = some c' ∧ c'.parent_id = some tid)) := by
  refine ⟨?_, ?_, ?_⟩
  · simp only [merge_entities, ht]
    rw [merge_loop_skip_eq tid target.entity_type u db sids db (fun j h => h)]
  · rintro ⟨w, hmem, hwt, src, hfw, hty⟩
    simp only [merge_entities, ht,
      merge_loop_mismatch_error tid target.entity_type u sids db w src hmem hwt hfw hty]
  · intro hall
    obtain ⟨db', hok, hdel⟩ :=
      merge_loop_all_match_ok tid target.entity_type u sids db hall
    simp only [merge_entities, ht, hok]
    refine ⟨_, rfl, hdel, ?_, ?_⟩
    · intro hnd
      exact merge_loop_target_quantity tid target.entity_type u sids db target.quantity
        hnd hall (by rw [ht]; rfl) db' hok
    · intro c s hc hcp hmem hstid hsf hcnot hct
      exact merge_loop_reparents tid target.entity_type u sids db c s hall hc hcp
        hmem hstid hsf hcnot hct db' hok

/-- C3, witness: with sources `[99, 2, 3]` where 99 and 2 do not exist and 3
is a same-type container of quantity 4 holding child 5, the merge equals the
merge of `[3]` alone (the failing lookups are skipped), succeeds, deletes
source 3, raises the target's quantity from 1 to 5, and reparents child 5
onto the target. -/
theorem merge_skip_and_abort_semantics_witness :
    merge_entities wC3db 1 [99, 2, 3] 4 = merge_entities wC3db 1 [3] 4
    ∧ (stateOf (merge_entities wC3db 1 [3] 4)).map
        (fun d => (findEntity d 3).isNone) = some true
    ∧ (stateOf (merge_entities wC3db 1 [3] 4)).bind
        (fun d => (findEntity d 1).map Entity.quantity) = some 5
    ∧ (stateOf (merge_entities wC3db 1 [3] 4)).bind
        (fun d => (findEntity d 5).map Entity.parent_id) = some (some 1) := by
  obtain ⟨p, hok, hdel, hsum, hrep⟩ :=
    (merge_skip_and_abort_semantics wC3db 1 4 [3] wC3target rfl).2.2
      (by
        intro s hs hstid src hf
        simp at hs
        subst hs
        rw [show findEntity wC3db 3 = some wS3 from rfl] at hf
        cases hf
        rfl)
  refine ⟨?_, ?_, ?_, ?_⟩
  · exact (merge_skip_and_abort_semantics wC3db 1 4 [99, 2, 3] wC3target rfl).1
  · rw [hok]
    show some (findEntity p.1 3).isNone = some true
    rw [hdel 3 (by simp) (by decide)]
    rfl
  · rw [hok]
    show (findEntity p.1 1).map Entity.quantity = some 5
    rw [hsum (by decide)]
    decide
  · obtain ⟨c', hc', hcp'⟩ :=
      hrep wChild 3 rfl rfl (by simp) (by decide) rfl (by decide) (by decide)
    rw [hok]
    show (findEntity p.1 wChild.id).map Entity.parent_id = some (some 1)
    rw [hc']
    rw [show (some c').map Entity.parent_id = some c'.parent_id from rfl, hcp']

-- ==========================================================================
-- Claim C2 (parent cycles)
-- ==========================================================================

/-- C2: parent cycles ARE reachable - the code only rejects DIRECT
self-parenting (`parent.id == entity.id`), despite its own
"Prevent circular reference" comment.  Three successful operations - create
container A in warehouse 1, create container B inside A, update A's parent to
B - leave A and B as each other's parents: a parent-chain cycle of length 2.
This evaluates the embedded code at that failing input. -/
theorem parent_cycle_reachable :
    isOkE cycRes1 = true ∧ isOkE cycRes2 = true ∧ isOkE cycRes3 = true
    ∧ (findEntity cycDB3 1).map Entity.parent_id = some (some 2)
    ∧ (findEntity cycDB3 2).map Entity.parent_id = some (some 1) := by decide

end SimpleInventory
